import Mathlib

/-!
Verification development for the AI-research knowledge-graph system
(`graph_utils.py`, `populate_Graph.py`, `extract_graph.py`, `tools.py`, `app.py`).

The Neo4j-backed store is embedded as an explicit graph state (lists of nodes
and relationships carrying the properties the Cypher queries read).  The Cypher
statements that the repository issues are translated, query by query, into pure
functions on that state.  External collaborators (the LLM, Python's `json`
module) are modelled as oracle parameters, so every theorem quantifies over all
of their behaviours.
-/

namespace KG

/-! ## Graph-store data model

Every node the code ever creates is a `(:Entity)` node with a `name` property
and (possibly) a `session_id` property; every relationship is a `[:RELATION]`
edge with a `type` property and (possibly) a `session_id` property
(`populate_Graph.py`, `IMPORT_QUERY`).  A property that may be absent is an
`Option String`. -/

/-- An `(:Entity)` node: `name` and `session_id` properties. -/
structure NodeP where
  name : String
  sid : Option String
deriving DecidableEq, Repr

/-- A `[:RELATION]` relationship: endpoints, `type` and `session_id` properties.
In Neo4j a relationship always has two existing endpoint nodes; they are stored
by value here because every query of the repository only reads their properties. -/
structure RelP where
  head : NodeP
  tail : NodeP
  rtype : String
  sid : Option String
deriving DecidableEq, Repr

/-- The store state: the multiset of nodes and relationships, as lists. -/
structure Graph where
  nodes : List NodeP
  rels : List RelP
deriving DecidableEq, Repr

/-- A triple record of the JSON interchange file (`{head, relation, tail, source}`),
the input rows of `populate_neo4j` and the output records of `process_pdf_file`. -/
structure TripleD where
  head : String
  relation : String
  tail : String
  source : String
deriving DecidableEq, Repr

/-- Python truthiness of an optional string (`if session_id:`): `None` and the
empty string are falsy.  Returns the session id exactly when it is truthy, so
`match sidFilter sid with | some s => ... | none => ...` mirrors
`if session_id: ... else: ...`. -/
def sidFilter : Option String → Option String
  | none => none
  | some s => if s = "" then none else some s

/-! ## `populate_Graph.py` : IMPORT_QUERY / populate_neo4j

`IMPORT_QUERY` is, per row of the `UNWIND`:
`MERGE (h:Entity {name: row.head, session_id: $session_id})`,
`MERGE (t:Entity {name: row.tail, session_id: $session_id})`,
`MERGE (h)-[r:RELATION {type: row.relation}]->(t)`, `SET r.session_id = $session_id`.
A node `MERGE` matches on the (`name`, `session_id`) property pair; the
relationship `MERGE` matches on (endpoints, `type`) — `session_id` is *not*
part of the relationship merge key, it is overwritten by the `SET`. -/

/-- `MERGE (n:Entity {name, session_id})`: create the node unless an identical
one already exists. -/
def mergeNode (g : Graph) (n : NodeP) : Graph :=
  if n ∈ g.nodes then g else { g with nodes := g.nodes ++ [n] }

/-- Does relationship `r` match the merge pattern `(h)-[:RELATION {type: ty}]->(t)`? -/
def relKeyMatches (r : RelP) (h t : NodeP) (ty : String) : Prop :=
  r.head = h ∧ r.tail = t ∧ r.rtype = ty

instance (r : RelP) (h t : NodeP) (ty : String) : Decidable (relKeyMatches r h t ty) := by
  unfold relKeyMatches; infer_instance

/-- `MERGE (h)-[r:RELATION {type: ty}]->(t)` followed by `SET r.session_id = $session_id`:
if matching relationships exist, the `SET` runs on each match; otherwise the
relationship is created (and the `SET` stamps it). -/
def mergeRel (g : Graph) (h t : NodeP) (ty : String) (s : Option String) : Graph :=
  if g.rels.any (fun r => decide (relKeyMatches r h t ty)) then
    { g with rels := g.rels.map (fun r => if relKeyMatches r h t ty then { r with sid := s } else r) }
  else
    { g with rels := g.rels ++ [⟨h, t, ty, s⟩] }

/-- One row of the `UNWIND $triples AS row` body of `IMPORT_QUERY`. -/
def importRow (g : Graph) (row : TripleD) (s : Option String) : Graph :=
  mergeRel (mergeNode (mergeNode g ⟨row.head, s⟩) ⟨row.tail, s⟩)
    ⟨row.head, s⟩ ⟨row.tail, s⟩ row.relation s

/-- The whole `IMPORT_QUERY`, over the list of rows. -/
def importTriples (g : Graph) (rows : List TripleD) (s : Option String) : Graph :=
  rows.foldl (fun acc row => importRow acc row s) g

/-- `populate_neo4j` (pure core, the JSON file already parsed into `data`):
an empty triple list returns the warning outcome `(False, 0)` without touching
the store, otherwise `IMPORT_QUERY` runs and `(True, len(data))` is returned.
(The missing-file and connection-error returns read external state and are not
part of the store semantics.  A `None` session id — which every caller avoids,
`app.py` always passes a `uuid4` string — would make Neo4j reject the `MERGE`
on a null property; the embedding treats the absent id as an ordinary merge
value, and the theorems about ingestion instantiate real session ids.) -/
def populate_neo4j (g : Graph) (data : List TripleD) (sid : Option String) :
    (Bool × Nat) × Graph :=
  if data.isEmpty then ((false, 0), g)
  else ((true, data.length), importTriples g data sid)

/-! ## `graph_utils.py` : get_graph_stats / clear_database -/

/-- Statistics record returned by `get_graph_stats` (the `relation_types`
breakdown is captured separately by `relTypeCount`, which determines it up to
the unspecified ordering of equal counts). -/
structure Stats where
  nodes : Nat
  relationships : Nat
deriving DecidableEq, Repr

/-- `MATCH (n:Entity) WHERE n.session_id = $session_id RETURN count(n)`. -/
def sessionNodeCount (g : Graph) (s : String) : Nat :=
  g.nodes.countP (fun n => n.sid == some s)

/-- `MATCH (n:Entity)-[r:RELATION]->(m:Entity) WHERE n.session_id = $session_id
AND m.session_id = $session_id RETURN count(r)`. -/
def sessionRelCount (g : Graph) (s : String) : Nat :=
  g.rels.countP (fun r => r.head.sid == some s && r.tail.sid == some s)

/-- `get_graph_stats`: session-scoped counts when `session_id` is truthy,
global counts otherwise. -/
def get_graph_stats (g : Graph) (sid : Option String) : Stats :=
  match sidFilter sid with
  | some s => ⟨sessionNodeCount g s, sessionRelCount g s⟩
  | none => ⟨g.nodes.length, g.rels.length⟩

/-- The count reported for relation type `ty` by the `relation_types` query of
`get_graph_stats` (`RETURN DISTINCT r.type, count(*)`, with the same session
filter on both endpoints as the relationship count). -/
def relTypeCount (g : Graph) (sid : Option String) (ty : String) : Nat :=
  match sidFilter sid with
  | some s =>
      g.rels.countP (fun r => r.head.sid == some s && r.tail.sid == some s && r.rtype == ty)
  | none => g.rels.countP (fun r => r.rtype == ty)

/-- `clear_database`: `MATCH (n) WHERE n.session_id = $session_id DETACH DELETE n`
when the session id is truthy (deleting matching nodes and, by `DETACH`, every
relationship incident to one of them), `MATCH (n) DETACH DELETE n` otherwise. -/
def clear_database (g : Graph) (sid : Option String) : Graph :=
  match sidFilter sid with
  | some s =>
      { nodes := g.nodes.filter (fun n => !(n.sid == some s)),
        rels := g.rels.filter (fun r => !(r.head.sid == some s) && !(r.tail.sid == some s)) }
  | none => { nodes := [], rels := [] }

/-- A row is absorbed by the store: both its nodes exist, a relationship with
its merge key exists, and every relationship with its merge key already has
`session_id = s`.  Re-running `IMPORT_QUERY` on an absorbed row is a no-op. -/
def RowAbsorbed (g : Graph) (row : TripleD) (s : Option String) : Prop :=
  (⟨row.head, s⟩ : NodeP) ∈ g.nodes ∧ (⟨row.tail, s⟩ : NodeP) ∈ g.nodes ∧
  (∃ r ∈ g.rels, relKeyMatches r ⟨row.head, s⟩ ⟨row.tail, s⟩ row.relation) ∧
  (∀ r ∈ g.rels, relKeyMatches r ⟨row.head, s⟩ ⟨row.tail, s⟩ row.relation → r.sid = s)

/-- Concrete two-session store mirroring `verify_session_isolation.py`:
two entities and one relationship under session `sessA`, one entity under `sessB`. -/
def twoSessionStore : Graph :=
  { nodes := [⟨"NodeA", some "sessA"⟩, ⟨"NodeA2", some "sessA"⟩, ⟨"NodeB", some "sessB"⟩],
    rels := [⟨⟨"NodeA", some "sessA"⟩, ⟨"NodeA2", some "sessA"⟩, "TEST", some "sessA"⟩] }

/-- A concrete triple batch, used to exercise ingestion under session `sessB`. -/
def sampleBatch : List TripleD :=
  [⟨"tau", "aggregates_in", "neurons", "paper.pdf"⟩,
   ⟨"amyloid", "associated_with", "Alzheimer", "paper.pdf"⟩]

/-! ## TTL sweep (`cleanup_old_data`, C3)

`app.py` imports `cleanup_old_data` from `graph_utils` and calls it once at
process start with `hours=24`, but the function body is not present in the
provided sources; it is therefore modelled from the specification. -/

/-- A store whose items carry their implicit age in hours (derived from the
session's `created_at`). -/
structure TimedGraph where
  nodes : List (NodeP × Nat)
  rels : List (RelP × Nat)
deriving DecidableEq, Repr

/-- Modelled from the spec: `cleanup_old_data` (the spec's
`sweep(max_age_hours) -> deleted_count`, §4.5/§8 of the specification) — the
function is imported by `app.py` from `graph_utils` but missing from the
provided sources.  It deletes every entity/relation whose implicit age exceeds
the configured threshold, retains every item whose age is within the threshold,
and returns the count of deleted items. -/
def cleanup_old_data (g : TimedGraph) (hours : Nat) : Nat × TimedGraph :=
  ((g.nodes.filter (fun p => decide (hours < p.2))).length
     + (g.rels.filter (fun p => decide (hours < p.2))).length,
   { nodes := g.nodes.filter (fun p => decide (¬ hours < p.2)),
     rels := g.rels.filter (fun p => decide (¬ hours < p.2)) })

/-! ## Failure behaviour of the store adapters (C6)

`get_graph_stats` wraps its body in `try: ... finally: driver.close()` with no
`except` clause, while `clear_database` has `except Exception: return False`.
The store connection is modelled as `Except String Graph`: `.error e` is a
connectivity failure raising exception `e`, `.ok g` a working store holding `g`. -/

/-- `get_graph_stats` with an explicit store connection.  The source has no
exception handler (its `finally` only closes the driver), so a raised store
exception propagates to the caller unchanged. -/
def get_graph_statsE (conn : Except String Graph) (sid : Option String) :
    Except String Stats :=
  match conn with
  | .error e => .error e
  | .ok g => .ok (get_graph_stats g sid)

/-- `clear_database` with an explicit store connection: its
`except Exception as e: return False` swallows any store failure and returns
`False` (no state reached, modelled as `none`). -/
def clear_databaseE (conn : Except String Graph) (sid : Option String) :
    Bool × Option Graph :=
  match conn with
  | .error _ => (false, none)
  | .ok g => (true, some (clear_database g sid))

/-! ## `extract_graph.py` : the triple extractor (C4, C8, C9, C10)

The LLM (`llm_general.invoke`) is an oracle: on each call it either returns a
response text or raises an exception with a message.  Python's `json.loads` is
a standard-library external and is likewise an oracle (`PyEnv.json_loads`);
the repository's own response-hardening code — code-fence stripping, locating
the JSON array, trailing-comma repair, and the per-triple filters — is
translated concretely below. -/

/-- Outcome of one LLM invocation: a response with the given `.content` text,
or a raised exception carrying `str(e)`. -/
inductive CallResult where
  | resp (content : String)
  | raiseExc (msg : String)
deriving DecidableEq, Repr

/-- A parsed JSON value, the result type of Python's `json.loads` to the depth
the code inspects (`isinstance(..., list)`, `isinstance(..., dict)`, `.get`,
truthiness, `str(...)`).  Numbers are modelled as integers (no claim depends
on float rendering); object keys are unique, as `json.loads` guarantees. -/
inductive JVal where
  | jstr (s : String)
  | jnum (n : Int)
  | jbool (b : Bool)
  | jnull
  | jarr (elems : List JVal)
  | jobj (fields : List (String × JVal))

mutual

/-- Python `repr` of a decoded JSON value (string-escaping refinements omitted;
no claim reads the rendering of containers), with its two helpers for the
comma-separated container bodies. -/
def pyRepr : JVal → String
  | .jstr s => "'" ++ s ++ "'"
  | .jnum n => toString n
  | .jbool b => if b then "True" else "False"
  | .jnull => "None"
  | .jarr xs => "[" ++ pyReprArr xs ++ "]"
  | .jobj fs => "\x7b" ++ pyReprObj fs ++ "\x7d"

def pyReprArr : List JVal → String
  | [] => ""
  | [x] => pyRepr x
  | x :: xs => pyRepr x ++ ", " ++ pyReprArr xs

def pyReprObj : List (String × JVal) → String
  | [] => ""
  | [(k, v)] => "'" ++ k ++ "': " ++ pyRepr v
  | (k, v) :: fs => "'" ++ k ++ "': " ++ pyRepr v ++ ", " ++ pyReprObj fs

end

/-- Python `str` of a decoded JSON value (`str` of a `str` is itself,
everything else renders as its `repr`). -/
def pyStr : JVal → String
  | .jstr s => s
  | v => pyRepr v

/-- Python truthiness of a decoded JSON value. -/
def pyTruthy : JVal → Bool
  | .jstr s => !(s == "")
  | .jnum n => !(n == 0)
  | .jbool b => b
  | .jnull => false
  | .jarr xs => !xs.isEmpty
  | .jobj fs => !fs.isEmpty

/-- Python `dict.get(k, default)` on a decoded JSON object. -/
def jget (fs : List (String × JVal)) (k : String) (default : JVal) : JVal :=
  match fs.find? (fun p => p.1 == k) with
  | some p => p.2
  | none => default

/-- Python `\s` (ASCII whitespace, as in `str.strip` and the `re` patterns). -/
def isPyWhitespace (c : Char) : Bool :=
  c == ' ' || c == '\t' || c == '\n' || c == '\r' || c == '\x0b' || c == '\x0c'

/-- Python `str.strip()`. -/
def pyStrip (s : String) : String :=
  ⟨((s.toList.dropWhile isPyWhitespace).reverse.dropWhile isPyWhitespace).reverse⟩

/-- Does `needle` occur as a contiguous sublist of `hay`? -/
def listContains (hay needle : List Char) : Bool :=
  if needle.isPrefixOf hay then true
  else
    match hay with
    | [] => false
    | _ :: t => listContains t needle

/-- Python `needle in hay` (substring containment). -/
def strContainsSub (hay needle : String) : Bool :=
  listContains hay.toList needle.toList

/-- Python `s.startswith(pre)`. -/
def strStartsWith (s pre : String) : Bool :=
  pre.toList.isPrefixOf s.toList

/-- Python `s.endswith(suf)`. -/
def strEndsWith (s suf : String) : Bool :=
  suf.toList.reverse.isPrefixOf s.toList.reverse

/-- ASCII lower-casing of one character (Python `str.lower` on the ASCII range;
every string the repository lower-cases is compared against ASCII literals). -/
def pyLowerChar (c : Char) : Char :=
  match c with
  | 'A' => 'a' | 'B' => 'b' | 'C' => 'c' | 'D' => 'd' | 'E' => 'e' | 'F' => 'f'
  | 'G' => 'g' | 'H' => 'h' | 'I' => 'i' | 'J' => 'j' | 'K' => 'k' | 'L' => 'l'
  | 'M' => 'm' | 'N' => 'n' | 'O' => 'o' | 'P' => 'p' | 'Q' => 'q' | 'R' => 'r'
  | 'S' => 's' | 'T' => 't' | 'U' => 'u' | 'V' => 'v' | 'W' => 'w' | 'X' => 'x'
  | 'Y' => 'y' | 'Z' => 'z' | other => other

/-- Python `str.lower()`. -/
def pyLower (s : String) : String :=
  ⟨s.toList.map pyLowerChar⟩

/-- The rate-limit classifier used throughout the repository:
`"resourceexhausted" in str(e).lower() or "429" in ... or "quota" in ...`. -/
def isRateLimitError (msg : String) : Bool :=
  strContainsSub (pyLower msg) "resourceexhausted" || strContainsSub (pyLower msg) "429"
    || strContainsSub (pyLower msg) "quota"

/-- Leftmost, non-overlapping `re.sub`-style rewriting engine: `tryRepl` is
tried at every position; on a match it yields the replacement text and the
number of consumed characters (always at least 1 for the patterns used here),
otherwise the scanner advances one character.  Fuel is the input length, which
suffices because every step consumes at least one character. -/
def reSubGo (tryRepl : List Char → Option (List Char × Nat)) :
    Nat → List Char → List Char
  | _, [] => []
  | 0, cs => cs
  | fuel + 1, c :: rest =>
    match tryRepl (c :: rest) with
    | some (rep, used) => rep ++ reSubGo tryRepl fuel (List.drop used (c :: rest))
    | none => c :: reSubGo tryRepl fuel rest

/-- Run a `re.sub` rewrite over a string. -/
def reSub (tryRepl : List Char → Option (List Char × Nat)) (s : String) : String :=
  ⟨reSubGo tryRepl s.toList.length s.toList⟩

/-- Matcher for `re.sub(pat + r'\s*', '', content)` (the code-fence strips
`'''json\s*'` and `'''\s*'`, with backquotes): delete the literal pattern and
any following whitespace. -/
def tryFenceRepl (pat : List Char) (cs : List Char) : Option (List Char × Nat) :=
  if pat.isPrefixOf cs then
    some ([], pat.length + ((cs.drop pat.length).takeWhile isPyWhitespace).length)
  else none

/-- The two code-fence `re.sub` passes of `extract_triples`:
first `'''json\s*'` then `'''\s*'` are deleted everywhere. -/
def stripCodeFences (content : String) : String :=
  reSub (tryFenceRepl "```".toList) (reSub (tryFenceRepl "```json".toList) content)

/-- Does the opening `\[\s*\{` of the array pattern match at the head?  If so,
return the index just after the `\x7b`. -/
def arrayOpenLen (cs : List Char) : Option Nat :=
  match cs with
  | '[' :: r =>
      let ws := (r.takeWhile isPyWhitespace).length
      match r.drop ws with
      | '\x7b' :: _ => some (1 + ws + 1)
      | _ => none
  | _ => none

/-- Does the closing `\}\s*\]` match at the head?  If so, return its length. -/
def arrayCloseLen (cs : List Char) : Option Nat :=
  match cs with
  | '\x7d' :: r =>
      let ws := (r.takeWhile isPyWhitespace).length
      match r.drop ws with
      | ']' :: _ => some (1 + ws + 1)
      | _ => none
  | _ => none

/-- First index at which the opening part matches, with the inner start
position (index after the `\x7b`). -/
def firstArrayOpen : List Char → Nat → Option (Nat × Nat)
  | [], _ => none
  | c :: rest, i =>
      match arrayOpenLen (c :: rest) with
      | some len => some (i, i + len)
      | none => firstArrayOpen rest (i + 1)

/-- Last end-position of a `\}\s*\]` match starting at an index `≥ start`. -/
def lastArrayClose (cs : List Char) (start : Nat) : Option Nat :=
  (List.range cs.length).foldl
    (fun acc j =>
      if start ≤ j then
        match arrayCloseLen (cs.drop j) with
        | some len => some (j + len)
        | none => acc
      else acc)
    none

/-- `re.search(r'\[\s*\{.*\}\s*\]', content, re.DOTALL)`: leftmost start of
`\[\s*\{`, then (greedy `.*`) the last `\}\s*\]` ending after it.  If the
leftmost viable start has no closing part after it, no later start has one
either (any close after a later start is also after the earlier one), so this
deterministic procedure is the regex search. -/
def searchArrayGreedy (s : String) : Option String :=
  let cs := s.toList
  match firstArrayOpen cs 0 with
  | none => none
  | some (i, inner) =>
      match lastArrayClose cs inner with
      | none => none
      | some endIdx => some ⟨(cs.drop i).take (endIdx - i)⟩

/-- `re.search(r'\[.*?\]', content, re.DOTALL)` (the fallback-prompt pattern):
leftmost `[`, then (lazy `.*?`) the first `]` after it. -/
def searchLazyArray (s : String) : Option String :=
  let cs := s.toList
  match cs.findIdx? (fun c => c == '[') with
  | none => none
  | some i =>
      match (cs.drop (i + 1)).findIdx? (fun c => c == ']') with
      | none => none
      | some k => some ⟨(cs.drop i).take (k + 2)⟩

/-- Matcher for `re.sub(r',\s*C', 'C', s)` with `C` a closing bracket
(the trailing-comma repairs): `,` + whitespace + `C` rewrites to `C`. -/
def tryTrailingComma (close : Char) (cs : List Char) : Option (List Char × Nat) :=
  match cs with
  | ',' :: r =>
      let ws := (r.takeWhile isPyWhitespace).length
      match r.drop ws with
      | c :: _ => if c == close then some ([close], 1 + ws + 1) else none
      | [] => none
  | _ => none

/-- The two trailing-comma repairs of `extract_triples`:
`re.sub(r',\s*\]', ']', s)` then `re.sub(r',\s*\}', '\x7d', s)`. -/
def fixTrailingCommas (s : String) : String :=
  reSub (tryTrailingComma '\x7d') (reSub (tryTrailingComma ']') s)

/-- The array-locating pipeline of `extract_triples`: fence-strip, `strip()`,
the greedy array search, and the `startswith('[') and endswith(']')` fallback. -/
def extractJsonStr (content : String) : Option String :=
  let c := pyStrip (stripCodeFences content)
  match searchArrayGreedy c with
  | some js => some js
  | none => if strStartsWith c "[" && strEndsWith c "]" then some c else none

/-- `KnowledgeTriple` (the pydantic model of `extract_graph.py`). -/
structure KnowledgeTriple where
  head : String
  relation : String
  tail : String
deriving DecidableEq, Repr

/-- `KnowledgeGraph` (the pydantic model of `extract_graph.py`). -/
structure KnowledgeGraph where
  triples : List KnowledgeTriple
deriving DecidableEq, Repr

/-- The external Python standard-library behaviour `extract_triples` depends
on: `json.loads` (`none` models a raised `json.JSONDecodeError`). -/
structure PyEnv where
  json_loads : String → Option JVal

/-- The LLM behaviour during one `extract_triples` call: the outcome of the
main structured-extraction prompt on each retry attempt, and of the one
possible fallback (`simple_prompt`) invocation. -/
structure ExtractBehavior where
  main : Nat → CallResult
  simpleCall : CallResult

/-- The per-item build-and-filter loop of the primary parsing path:
`head = str(t.get('head', '')).strip()` (same for relation/tail), keep the
triple only `if head and relation and tail and len(head) > 0 and len(tail) > 0`;
list elements that are not dicts are skipped. -/
def buildPrimary (items : List JVal) : List KnowledgeTriple :=
  items.filterMap (fun t =>
    match t with
    | .jobj fs =>
        let head := pyStrip (pyStr (jget fs "head" (.jstr "")))
        let relation := pyStrip (pyStr (jget fs "relation" (.jstr "")))
        let tail := pyStrip (pyStr (jget fs "tail" (.jstr "")))
        if !(head == "") && !(relation == "") && !(tail == "")
            && decide (0 < head.length) && decide (0 < tail.length) then
          some ⟨head, relation, tail⟩
        else none
    | _ => none)

/-- The per-item build of the degraded fallback path:
keep `if isinstance(t, dict) and t.get('head') and t.get('relation') and
t.get('tail')` (Python truthiness of the raw values, checked *before*
stripping), then `str(t['head']).strip()` etc. -/
def buildSimple (items : List JVal) : List KnowledgeTriple :=
  items.filterMap (fun t =>
    match t with
    | .jobj fs =>
        if pyTruthy (jget fs "head" .jnull) && pyTruthy (jget fs "relation" .jnull)
            && pyTruthy (jget fs "tail" .jnull) then
          some ⟨pyStrip (pyStr (jget fs "head" .jnull)),
                pyStrip (pyStr (jget fs "relation" .jnull)),
                pyStrip (pyStr (jget fs "tail" .jnull))⟩
        else none
    | _ => none)

/-- The primary parsing path applied to one main-prompt response `content`:
locate the JSON array, repair trailing commas, `json.loads`, require a
non-empty list, build and filter the triples; `some` exactly when the source
executes `return KnowledgeGraph(triples=triples)` with a non-empty list. -/
def primaryParse (env : PyEnv) (content : String) : Option KnowledgeGraph :=
  match extractJsonStr content with
  | none => none
  | some js0 =>
      match env.json_loads (fixTrailingCommas js0) with
      | none => none
      | some (.jarr items) =>
          if 0 < items.length then
            if (buildPrimary items).isEmpty then none else some ⟨buildPrimary items⟩
          else none
      | some _ => none

/-- The degraded fallback (`simple_prompt`) path, reached only on the last
attempt: invoke once; any raised exception or parse failure yields `none`
(the surrounding bare `except: pass`), a non-empty filtered triple list is
returned. -/
def simpleFallback (env : PyEnv) (call : CallResult) : Option KnowledgeGraph :=
  match call with
  | .raiseExc _ => none
  | .resp content =>
      match searchLazyArray content with
      | none => none
      | some js =>
          match env.json_loads js with
          | none => none
          | some (.jarr items) =>
              let triples := buildSimple items
              if triples.isEmpty then none else some ⟨triples⟩
          | some _ => none

/-- The `for attempt in range(max_retries)` loop of `extract_triples`, over the
remaining attempt indices.  Returns the result together with the number of
main-prompt and fallback-prompt LLM invocations issued.  The body mirrors the
source: a successful parse with non-empty triples returns; a parse failure on
the last attempt tries the fallback prompt and otherwise `return
KnowledgeGraph(triples=[])` ends the call (no retry on parse failure); a raised
exception retries (with rate-limit or generic backoff) unless this was the last
attempt, in which case the result is empty.  The `[]` case is the unreachable
loop-exhaustion line `return KnowledgeGraph(triples=[])`. -/
def extractAttempts (env : PyEnv) (beh : ExtractBehavior) :
    List Nat → KnowledgeGraph × Nat × Nat
  | [] => (⟨[]⟩, 0, 0)
  | attempt :: rest =>
    match beh.main attempt with
    | .raiseExc msg =>
        if isRateLimitError msg && decide (attempt < 3 - 1) then
          ((extractAttempts env beh rest).1, (extractAttempts env beh rest).2.1 + 1,
            (extractAttempts env beh rest).2.2)
        else if decide (attempt < 3 - 1) then
          ((extractAttempts env beh rest).1, (extractAttempts env beh rest).2.1 + 1,
            (extractAttempts env beh rest).2.2)
        else (⟨[]⟩, 1, 0)
    | .resp content =>
        match primaryParse env content with
        | some kg => (kg, 1, 0)
        | none =>
            if attempt == 3 - 1 then
              match simpleFallback env beh.simpleCall with
              | some kg => (kg, 1, 1)
              | none => (⟨[]⟩, 1, 1)
            else (⟨[]⟩, 1, 0)

/-- `extract_triples(text_chunk, domain)`: the short-chunk short-circuit
(`if not text_chunk or len(text_chunk.strip()) < 50`) returns an empty
`KnowledgeGraph` before any model call; otherwise the attempt loop runs with
`max_retries = 3`.  The two instrumentation components count the main-prompt
and fallback-prompt LLM invocations issued (`domain` only parameterizes the
prompt text, which the behaviour oracle already ranges over). -/
def extract_triples (env : PyEnv) (beh : ExtractBehavior)
    (text_chunk : String) (domain : String) : KnowledgeGraph × Nat × Nat :=
  if text_chunk == "" || decide ((pyStrip text_chunk).length < 50) then (⟨[]⟩, 0, 0)
  else extractAttempts env beh [0, 1, 2]

/-! ## `extract_graph.py` : detect_domain / process_pdf_file -/

/-- The retry loop of `detect_domain` (`max_retries = 3`): a response returns
`response.content.strip()`; a raised exception retries only when it is a
rate-limit error and attempts remain, otherwise `"Unknown Domain"` is returned.
Instrumented with the number of LLM calls; the `[]` case is unreachable for
the full attempt list (the last attempt always returns). -/
def detectAttempts (beh : Nat → CallResult) : List Nat → String × Nat
  | [] => ("Unknown Domain", 0)
  | attempt :: rest =>
    match beh attempt with
    | .resp content => (pyStrip content, 1)
    | .raiseExc msg =>
        if isRateLimitError msg && decide (attempt < 3 - 1) then
          ((detectAttempts beh rest).1, (detectAttempts beh rest).2 + 1)
        else ("Unknown Domain", 1)

/-- `detect_domain(preview_text)` (the preview text only parameterizes the
prompt, which the behaviour oracle ranges over). -/
def detect_domain (beh : Nat → CallResult) : String × Nat :=
  detectAttempts beh [0, 1, 2]

/-- `CHUNK_SIZE` of `extract_graph.py`. -/
def CHUNK_SIZE : Nat := 15000

/-- `chunks = [raw_text[j:j+CHUNK_SIZE] for j in range(0, len(raw_text), CHUNK_SIZE)]`
(character-based slicing). -/
def chunkText (cs : List Char) : List String :=
  if h : cs = [] then []
  else ⟨cs.take CHUNK_SIZE⟩ :: chunkText (cs.drop CHUNK_SIZE)
termination_by cs.length
decreasing_by
  simp only [List.length_drop]
  have h0 : 0 < cs.length := List.length_pos.mpr h
  have hc : CHUNK_SIZE = 15000 := rfl
  omega

/-- The LLM behaviour during one `process_pdf_file` call: the domain-detection
attempts, and per chunk index the main attempts and fallback call of its
`extract_triples` invocation. -/
structure PdfBehavior where
  domain : Nat → CallResult
  chunkMain : Nat → Nat → CallResult
  chunkSimple : Nat → CallResult

/-- `filename or 'uploaded_file'` (Python truthiness). -/
def sourceName (filename : Option String) : String :=
  match filename with
  | some f => if f == "" then "uploaded_file" else f
  | none => "uploaded_file"

/-- `process_pdf_file` (with `raw_text` the text the external PDF readers
extracted): the short-text short-circuit (`if not raw_text or
len(raw_text.strip()) < 100`) returns `[]` before domain detection; otherwise
the text is chunked, chunks shorter than 50 stripped characters are skipped,
and each remaining chunk's `extract_triples` result is tagged with
`source = filename or 'uploaded_file'` and accumulated.  The instrumentation
component counts every LLM invocation issued (domain detection plus all chunk
calls).  Note the return value is the flat list of triple dicts — not a
(triples, domain, summary) tuple. -/
def process_pdf_file (env : PyEnv) (beh : PdfBehavior) (raw_text : String)
    (filename : Option String) : List TripleD × Nat :=
  if raw_text == "" || decide ((pyStrip raw_text).length < 100) then ([], 0)
  else
    let dres := detect_domain beh.domain
    let chunks := chunkText raw_text.toList
    let src := sourceName filename
    let step := fun (acc : List TripleD × Nat) (p : Nat × String) =>
      if decide ((pyStrip p.2).length < 50) then acc
      else
        let (kg, m, s1) := extract_triples env ⟨beh.chunkMain p.1, beh.chunkSimple p.1⟩
          p.2 dres.1
        if kg.triples.isEmpty then (acc.1, acc.2 + m + s1)
        else (acc.1 ++ kg.triples.map (fun t => ⟨t.head, t.relation, t.tail, src⟩),
          acc.2 + m + s1)
    let folded := chunks.enum.foldl step ([], 0)
    (folded.1, dres.2 + folded.2)

/-- The tuple unpacking `file_triples, domain, summary = process_pdf_file(...)`
performed by the ingestion batch loop in `app.py`: unpacking a Python list
into three variables succeeds only when the list has exactly three elements
(otherwise a `ValueError` is raised, modelled as `none`). -/
def unpack3 {α : Type} : List α → Option (α × α × α)
  | [a, b, c] => some (a, b, c)
  | _ => none

/-- Is this call outcome a raised exception? -/
def CallResult.isRaise : CallResult → Bool
  | .raiseExc _ => true
  | .resp _ => false

/-! ### Concrete oracle instances for the extractor claims -/

/-- A `json.loads` oracle that fails on every input (no claim path needs it). -/
def envTrivial : PyEnv := ⟨fun _ => none⟩

/-- An always-offline LLM for `process_pdf_file` (every call raises). -/
def behTrivialPdf : PdfBehavior :=
  ⟨fun _ => .raiseExc "offline", fun _ _ => .raiseExc "offline", fun _ => .raiseExc "offline"⟩

/-- A chunk long enough (≥ 50 stripped characters) to pass the short-circuit. -/
def chunkC8 : String :=
  "Paris is the capital of France and hosts the headquarters of UNESCO near the Seine."

/-- The fallback-prompt response of the C8 counterexample: a valid JSON array
whose `head` field is whitespace-only (truthy before stripping, empty after). -/
def fallbackArrayText : String :=
  "[\x7b\"head\": \" \", \"relation\": \"located_in\", \"tail\": \"Paris\"\x7d]"

/-- What `json.loads` returns on `fallbackArrayText`. -/
def fallbackParsed : JVal :=
  .jarr [.jobj [("head", .jstr " "), ("relation", .jstr "located_in"),
    ("tail", .jstr "Paris")]]

/-- `json.loads` oracle for the C8 counterexample, mapping the fallback array
text to its decoded value exactly as Python's `json.loads` does. -/
def envC8 : PyEnv := ⟨fun s => if s == fallbackArrayText then some fallbackParsed else none⟩

/-- LLM behaviour of the C8 counterexample: two rate-limit failures, then an
unparseable main response, driving the call into the fallback prompt, which
answers with `fallbackArrayText`. -/
def behC8 : ExtractBehavior :=
  ⟨fun a => if a < 2 then .raiseExc "429 Resource has been exhausted (check quota)."
    else .resp "I cannot find structured facts in this text.",
   .resp fallbackArrayText⟩

/-- A well-formed main-prompt response (primary path). -/
def primaryArrayText : String :=
  "[\x7b\"head\": \"tau\", \"relation\": \"phosphorylated_by\", \"tail\": \"GSK3B\"\x7d]"

/-- What `json.loads` returns on `primaryArrayText`. -/
def primaryParsed : JVal :=
  .jarr [.jobj [("head", .jstr "tau"), ("relation", .jstr "phosphorylated_by"),
    ("tail", .jstr "GSK3B")]]

/-- `json.loads` oracle for the C8 witness. -/
def envC8w : PyEnv := ⟨fun s => if s == primaryArrayText then some primaryParsed else none⟩

/-- LLM behaviour for the C8 witness: the first main call already succeeds. -/
def behC8w : ExtractBehavior := ⟨fun _ => .resp primaryArrayText, .raiseExc "unused"⟩

/-- An always-raising extractor behaviour (C10 witness). -/
def behAllRaise : ExtractBehavior :=
  ⟨fun _ => .raiseExc "500 internal server error", .raiseExc "500 internal server error"⟩

/-! ## `tools.py` : fix_cypher_query (C7)

`fix_cypher_query` is three `re.sub` passes.  The queries it rewrites are
ASCII Cypher text, so the regex classes are modelled on the ASCII range. -/

/-- ASCII lowercase letter. -/
def isAsciiLower (c : Char) : Bool := "abcdefghijklmnopqrstuvwxyz".toList.contains c

/-- ASCII uppercase letter (Python `c.isupper()` on the ASCII range). -/
def isAsciiUpper (c : Char) : Bool := "ABCDEFGHIJKLMNOPQRSTUVWXYZ".toList.contains c

/-- ASCII digit. -/
def isAsciiDigit (c : Char) : Bool := "0123456789".toList.contains c

/-- The regex class `\w` = `[a-zA-Z0-9_]`. -/
def isWordChar (c : Char) : Bool :=
  isAsciiLower c || isAsciiUpper c || isAsciiDigit c || c == '_'

/-- The replacement function `fix_node_pattern(match)` of `fix_cypher_query`:
`var` is group 1, `value` group 2, `whole` is `match.group(0)`.  Variables that
look like entity names (same text as the value up to case, or capitalized) are
replaced by `(n:Entity {name: "value"})`, other long variables keep their name
but gain the label; short or underscore-prefixed variables leave the match
unchanged. -/
def fixNodePattern (var value whole : List Char) : List Char :=
  if !var.isEmpty && !(var.headD ' ' == '_') && decide (2 < var.length) then
    if var.map pyLowerChar == value.map pyLowerChar
        || isAsciiUpper (var.headD ' ') then
      "(n:Entity \x7bname: \"".toList ++ value ++ "\"\x7d)".toList
    else
      '(' :: var ++ ":Entity \x7bname: \"".toList ++ value ++ "\"\x7d)".toList
  else whole

/-- Matcher for pattern 1 of `fix_cypher_query`:
`\((\w+)\s*\{name:\s*['"]([^'"]+)['"]\}\)` with replacement `fix_node_pattern`. -/
def trySub1 (cs : List Char) : Option (List Char × Nat) :=
  match cs with
  | [] => none
  | c :: r1 =>
    if c = '(' then
      let var := r1.takeWhile isWordChar
      if var.isEmpty then none
      else
        let r2 := r1.drop var.length
        let w1 := (r2.takeWhile isPyWhitespace).length
        let r3 := r2.drop w1
        if "\x7bname:".toList.isPrefixOf r3 then
          let r4 := r3.drop 6
          let w2 := (r4.takeWhile isPyWhitespace).length
          match r4.drop w2 with
          | q1 :: r5 =>
              if q1 == '\'' || q1 == '"' then
                let value := r5.takeWhile (fun ch => !(ch == '\'') && !(ch == '"'))
                if value.isEmpty then none
                else
                  match r5.drop value.length with
                  | q2 :: '\x7d' :: ')' :: _ =>
                      if q2 == '\'' || q2 == '"' then
                        let used := 11 + var.length + w1 + w2 + value.length
                        some (fixNodePattern var value (cs.take used), used)
                      else none
                  | _ => none
              else none
          | [] => none
        else none
    else none

/-- Matcher for pattern 2 of `fix_cypher_query`: `\[(\w*)\]` with the lambda
`f'[{m.group(1) or "r"}:RELATION]' if not m.group(1) or ':' not in m.group(1)
else m.group(0)` (the `':' in group` test can never hold on a `\w*` group,
but is kept verbatim). -/
def trySub2 (cs : List Char) : Option (List Char × Nat) :=
  match cs with
  | [] => none
  | c :: r =>
    if c = '[' then
      let w := r.takeWhile isWordChar
      match r.drop w.length with
      | ']' :: _ =>
          let used := w.length + 2
          if w.isEmpty || !(w.contains ':') then
            some ('[' :: (if w.isEmpty then ['r'] else w) ++ ":RELATION]".toList, used)
          else some (cs.take used, used)
      | _ => none
    else none

/-- Matcher for pattern 3 of `fix_cypher_query`:
`\(([a-zA-Z_]\w*)\s*\{name:` with replacement `(\1:Entity \x7bname:`
(the matched whitespace is collapsed by the replacement). -/
def trySub3 (cs : List Char) : Option (List Char × Nat) :=
  match cs with
  | [] => none
  | c :: r =>
    if c = '(' then
      match r with
      | [] => none
      | c0 :: _ =>
          if isAsciiLower c0 || isAsciiUpper c0 || c0 == '_' then
            let var := r.takeWhile isWordChar
            let r2 := r.drop var.length
            let w1 := (r2.takeWhile isPyWhitespace).length
            if "\x7bname:".toList.isPrefixOf (r2.drop w1) then
              some ('(' :: var ++ ":Entity \x7bname:".toList, 7 + var.length + w1)
            else none
          else none
    else none

/-- `fix_cypher_query`: `if not query: return query`, then the three `re.sub`
passes in source order. -/
def fix_cypher_query (query : String) : String :=
  if query == "" then query
  else reSub trySub3 (reSub trySub2 (reSub trySub1 query))

/-- Scan every suffix for a position-wise occurrence test. -/
def scanAny (occAt : List Char → Bool) : List Char → Bool
  | [] => false
  | c :: r => occAt (c :: r) || scanAny occAt r

/-- An *unlabeled node pattern* starts here: `(` + variable (word characters,
no label) + optional whitespace + `\x7bname:`.  A query whose node patterns all
carry a label (e.g. `:Entity`) has no such occurrence, because the label's `:`
is not a word character. -/
def unlabeledNodeAt (cs : List Char) : Bool :=
  match cs with
  | [] => false
  | c :: r =>
    if c = '(' then
      let var := r.takeWhile isWordChar
      if var.isEmpty then false
      else
        let r2 := r.drop var.length
        "\x7bname:".toList.isPrefixOf (r2.drop (r2.takeWhile isPyWhitespace).length)
    else false

/-- An *untyped relationship bracket* starts here: `[` + word characters only +
`]` (covers `[]` and `[var]`; a typed pattern `[r:RELATION]` has a `:`, which
is not a word character, so it is not an occurrence). -/
def untypedRelAt (cs : List Char) : Bool :=
  match cs with
  | [] => false
  | c :: r =>
    if c = '[' then (r.drop (r.takeWhile isWordChar).length).head? == some ']'
    else false

/-- Whether the query contains an unlabeled node pattern anywhere. -/
def hasUnlabeledNode (s : String) : Bool := scanAny unlabeledNodeAt s.toList

/-- Whether the query contains an untyped relationship bracket anywhere. -/
def hasUntypedRel (s : String) : Bool := scanAny untypedRelAt s.toList

/-- An *untyped relationship-pattern* bracket starts here: the dash of a
Cypher relationship arrow immediately followed by a bare square-bracket group
`[`, word characters only, `]` (covers `-[]-`, `-[r]->`, `<-[r]-`: the `-[` is
present in every arrow form).  A square-bracket group in any other syntactic
role — e.g. a list subscript such as `collect(m.name)[0]` or `labels(m)[0]` —
is not a relationship pattern and is not an occurrence. -/
def untypedRelPatternAt (cs : List Char) : Bool :=
  match cs with
  | [] => false
  | c :: r => if c = '-' then untypedRelAt r else false

/-- Whether the query contains an untyped bracket in *relationship-pattern*
position (preceded by the arrow dash) anywhere.  This is the reading of the
claim's hypothesis "relationship patterns already carry the RELATION type":
it constrains relationship patterns only, not every bracket of the query. -/
def hasUntypedRelPattern (s : String) : Bool := scanAny untypedRelPatternAt s.toList

/-- A fully-labeled Cypher query: every node pattern carries `:Entity`, every
relationship pattern carries `:RELATION` (C7 witness input). -/
def labeledQueryW : String :=
  "MATCH (n:Entity \x7bname: 'tau'\x7d)-[r:RELATION]->(m:Entity) WHERE n.session_id = 'sessA' RETURN m.name"

/-- A fully-labeled query whose only relationship pattern is typed, ending in
a list subscript (C7 counterexample input). -/
def subscriptQueryW : String :=
  "MATCH (n:Entity \x7bname: 'tau'\x7d)-[r:RELATION]->(m:Entity) RETURN collect(m.name)[0]"

/-! ## `tools.py` : GraphTools.query_graph / try_direct_query /
generate_answer_from_results (C5)

The store holds a `Graph`; the parameterized Cypher queries that
`try_direct_query` issues are interpreted directly over it.  The
`GraphCypherQAChain` (an external langchain component wrapping an LLM and the
store) and the raw re-execution of a repaired query string are oracles. -/

/-- A result row of `session.run(...).data()`: a dict of column name to value
(all columns of the queries below are entity names or relation types, i.e.
strings). -/
abbrev Row := List (String × String)

/-- Python `row.get(k)` (`None` when the column is missing). -/
def rowGet (r : Row) (k : String) : Option String :=
  match r.find? (fun p => p.1 == k) with
  | some p => some p.2
  | none => none

/-- A chained Python `a or b or ...` over `dict.get` results, as used by the
answer formatter: the first truthy (present and non-empty) value, else a falsy
result. -/
def pyOr : List (Option String) → Option String
  | [] => none
  | x :: rest =>
      match x with
      | some v => if v == "" then pyOr rest else some v
      | none => pyOr rest

/-- Outcome of one `cypher_chain.invoke` cascade (the source tries up to three
invocation formats, catching exceptions in between; the net outcome is either
a raised exception, a result dict — with optional `result`/`answer` fields,
`intermediate_steps` where `some q` is a step dict carrying a `query` key, and
`asStr` its `str(result)` rendering — or a plain string result). -/
inductive ChainOut where
  | raiseE (msg : String)
  | dictRes (res : Option String) (ans : Option String) (steps : List (Option String))
      (asStr : String)
  | strRes (s : String)

/-- The external components `query_graph` talks to besides the structured
store: the QA chain per retry attempt, the raw re-execution of an arbitrary
repaired Cypher string, and the answer-synthesis LLM (keyed by prompt). -/
structure QueryEnv where
  chain : Nat → ChainOut
  runRaw : String → Except String (List Row)
  llm : String → CallResult

/-- `MATCH (e1:Entity)-[r:RELATION]-(e2:Entity)` is undirected: every
relationship is matched in both orientations (a self-loop once). -/
def undirectedPairs (g : Graph) : List (NodeP × NodeP × RelP) :=
  g.rels.bind (fun r =>
    if r.head = r.tail then [(r.head, r.tail, r)]
    else [(r.head, r.tail, r), (r.tail, r.head, r)])

/-- The optional session filter appended by `if session_id:` in
`try_direct_query` (`e1.session_id = $session_id AND e2.session_id = $session_id`). -/
def sessOk (sid : Option String) (a b : NodeP) : Bool :=
  match sidFilter sid with
  | some s => a.sid == some s && b.sid == some s
  | none => true

/-- `RETURN DISTINCT` dedup, keeping the first occurrence of each row. -/
def distinctRowsAux : List Row → List Row → List Row
  | [], _ => []
  | r :: rest, seen =>
      if seen.contains r then distinctRowsAux rest seen
      else r :: distinctRowsAux rest (r :: seen)

/-- `RETURN DISTINCT` over a row stream. -/
def distinctRows (rows : List Row) : List Row := distinctRowsAux rows []

/-- Pattern-1 exact query: undirected `RELATION` match where either endpoint's
lower-cased name equals the entity, optional session filter, `RETURN DISTINCT
connected_entity, relation, source_entity LIMIT 20`. -/
def interactExactRows (g : Graph) (sid : Option String) (entity : String) : List Row :=
  (distinctRows ((undirectedPairs g).filterMap (fun p =>
    if (pyLower p.1.name == pyLower entity || pyLower p.2.1.name == pyLower entity)
        && sessOk sid p.1 p.2.1 then
      some [("connected_entity",
              if pyLower p.1.name == pyLower entity then p.2.1.name else p.1.name),
            ("relation", p.2.2.rtype),
            ("source_entity",
              if pyLower p.1.name == pyLower entity then p.1.name else p.2.1.name)]
    else none))).take 20

/-- Pattern-1 partial-match query: as above but with `CONTAINS`, returning
`DISTINCT connected_entity, relation LIMIT 20`. -/
def interactContainsRows (g : Graph) (sid : Option String) (entity : String) : List Row :=
  (distinctRows ((undirectedPairs g).filterMap (fun p =>
    if (strContainsSub (pyLower p.1.name) (pyLower entity)
        || strContainsSub (pyLower p.2.1.name) (pyLower entity))
        && sessOk sid p.1 p.2.1 then
      some [("connected_entity",
              if strContainsSub (pyLower p.1.name) (pyLower entity)
              then p.2.1.name else p.1.name),
            ("relation", p.2.2.rtype)]
    else none))).take 20

/-- Pattern-2 query: undirected match where `e.name CONTAINS entity`
(lower-cased), optional session filter, `RETURN entity, relation, connected_to
LIMIT 15` (no DISTINCT). -/
def aboutRows (g : Graph) (sid : Option String) (entity : String) : List Row :=
  ((undirectedPairs g).filterMap (fun p =>
    if strContainsSub (pyLower p.1.name) (pyLower entity) && sessOk sid p.1 p.2.1 then
      some [("entity", p.1.name), ("relation", p.2.2.rtype),
            ("connected_to", p.2.1.name)]
    else none)).take 15

/-- Pattern-3 query: as pattern 2 with `RETURN entity, relation, related_entity
LIMIT 15`. -/
def generalRows (g : Graph) (sid : Option String) (entity : String) : List Row :=
  ((undirectedPairs g).filterMap (fun p =>
    if strContainsSub (pyLower p.1.name) (pyLower entity) && sessOk sid p.1 p.2.1 then
      some [("entity", p.1.name), ("relation", p.2.2.rtype),
            ("related_entity", p.2.1.name)]
    else none)).take 15

/-- One formatted line of `generate_answer_from_results`:
`" | ".join(f"{key}: {value}" ...)` over the truthy-valued columns. -/
def formatRow (r : Row) : String :=
  String.intercalate " | " ((r.filter (fun p => !(p.2 == ""))).map
    (fun p => p.1 ++ ": " ++ p.2))

/-- The answer-synthesis prompt of `generate_answer_from_results`. -/
def genAnswerPrompt (question results_text : String) : String :=
  "Based on the following graph query results, answer the question: " ++ question
    ++ "\n\nQuery Results:\n" ++ results_text
    ++ "\n\nProvide a clear, concise answer based on these results."

/-- The deterministic formatting fallback of `generate_answer_from_results`
(reached when no LLM is supplied or its call raises): the interaction
formatter, the single-row `k=v` join, or the multi-row example list.  The
`relation` computed in the summary loop is unused in the source and omitted. -/
def fallbackAnswer (question : String) (results : List Row) (results_text : String) :
    Option String :=
  let interactBranch : Option String :=
    if strContainsSub (pyLower question) "interact"
        || strContainsSub (pyLower question) "interaction" then
      let entities := (results.take 10).filterMap (fun r =>
        match pyOr [rowGet r "connected_entity", rowGet r "related_entity",
            rowGet r "entity2"] with
        | some e =>
            some (match pyOr [rowGet r "relation", rowGet r "type"] with
              | some rel => e ++ " (" ++ rel ++ ")"
              | none => e)
        | none => none)
      if entities.isEmpty then none
      else some ("Found " ++ toString results.length
        ++ " interaction(s). Entities that interact: "
        ++ String.intercalate ", " (entities.take 10))
    else none
  match interactBranch with
  | some a => some a
  | none =>
      if results.length == 1 then
        match results with
        | [r] => some ("Found: " ++ String.intercalate ", "
            ((r.filter (fun p => !(p.2 == ""))).map (fun p => p.1 ++ "=" ++ p.2)))
        | _ => none
      else
        let summary_items := (results.take 5).filterMap (fun r =>
          pyOr [rowGet r "entity", rowGet r "connected_entity", rowGet r "name"])
        if !summary_items.isEmpty then
          some ("Found " ++ toString results.length ++ " result(s). Examples: "
            ++ String.intercalate ", " summary_items)
        else
          some ("Found " ++ toString results.length ++ " result(s). "
            ++ (⟨results_text.toList.take 200⟩ : String))

/-- `generate_answer_from_results(question, results, llm)`: `None` on empty
results (the terminal no-result signal); otherwise an LLM summary of the
formatted rows, falling back to the deterministic formatter when no LLM is
supplied (`app.py` passes `None`) or its call raises. -/
def generate_answer_from_results (llm : Option (String → CallResult))
    (question : String) (results : List Row) : Option String :=
  if results.isEmpty then none
  else
    let results_text := String.intercalate "\n" ((results.take 10).map formatRow)
    let llmAns : Option String :=
      match llm with
      | some f =>
          match f (genAnswerPrompt question results_text) with
          | .resp content => some content
          | .raiseExc _ => none
      | none => none
    match llmAns with
    | some a => some a
    | none => fallbackAnswer question results results_text

/-- Case-insensitive literal-prefix test (the `re.IGNORECASE` alternatives are
lower-case literals). -/
def ciPrefix (pat cs : List Char) : Bool :=
  pat.isPrefixOf ((cs.take pat.length).map pyLowerChar)

/-- One alternative of `(?:with|to|and)\s+([a-zA-Z]+)` at the current
position: the literal (case-insensitive), at least one whitespace, then the
greedy letter group. -/
def tryInteractAlt (alt cs : List Char) : Option (List Char) :=
  if ciPrefix alt cs then
    let rest := cs.drop alt.length
    let sp := rest.takeWhile isPyWhitespace
    if sp.isEmpty then none
    else
      let letters := (rest.drop sp.length).takeWhile
        (fun c => isAsciiLower c || isAsciiUpper c)
      if letters.isEmpty then none else some letters
  else none

/-- `re.search(r'(?:with|to|and)\s+([a-zA-Z]+)', question, re.IGNORECASE)`:
at each position the alternatives are tried in order; the first full match
wins and its group is returned. -/
def searchInteractEntity : List Char → Option String
  | [] => none
  | c :: r =>
      match tryInteractAlt "with".toList (c :: r) with
      | some grp => some ⟨grp⟩
      | none =>
          match tryInteractAlt "to".toList (c :: r) with
          | some grp => some ⟨grp⟩
          | none =>
              match tryInteractAlt "and".toList (c :: r) with
              | some grp => some ⟨grp⟩
              | none => searchInteractEntity r

/-- One alternative of `(?:what is|tell me about|what are)\s+([a-zA-Z\s]+)` at
the current position (the scan runs on the lower-cased question, so the
literals match exactly).  `\s+` is greedy but backtracks one whitespace when
the character after the run cannot start the `[a-zA-Z\s]+` group: with `W` the
maximal whitespace run and `X` the next character, the group is the maximal
`[a-zA-Z\s]` run from `X` when `X` is a letter, the last whitespace character
when `X` is not a letter but `W` has length at least 2, and the match fails
otherwise. -/
def tryAboutAlt (alt cs : List Char) : Option (List Char) :=
  if alt.isPrefixOf cs then
    let rest := cs.drop alt.length
    let sp := rest.takeWhile isPyWhitespace
    if sp.isEmpty then none
    else
      let grp := (rest.drop sp.length).takeWhile
        (fun c => isAsciiLower c || isAsciiUpper c || isPyWhitespace c)
      if !grp.isEmpty then some grp
      else if decide (2 ≤ sp.length) then some [sp.getLast!]
      else none
  else none

/-- The pattern-2 regex search over the lower-cased question. -/
def searchAboutEntity : List Char → Option String
  | [] => none
  | c :: r =>
      match tryAboutAlt "what is".toList (c :: r) with
      | some grp => some ⟨grp⟩
      | none =>
          match tryAboutAlt "tell me about".toList (c :: r) with
          | some grp => some ⟨grp⟩
          | none =>
              match tryAboutAlt "what are".toList (c :: r) with
              | some grp => some ⟨grp⟩
              | none => searchAboutEntity r

/-- `[A-Z][a-z]+` at the current position. -/
def capWordAt (cs : List Char) : Option (List Char) :=
  match cs with
  | [] => none
  | c :: r =>
      if isAsciiUpper c then
        let low := r.takeWhile isAsciiLower
        if low.isEmpty then none else some (c :: low)
      else none

/-- The greedy `(?:\s+[A-Z][a-z]+)*` chain after the first capitalized word. -/
def collectCapUnits : Nat → List Char → List (List Char)
  | 0, _ => []
  | fuel + 1, rest =>
      let ws := rest.takeWhile isPyWhitespace
      if ws.isEmpty then []
      else
        match capWordAt (rest.drop ws.length) with
        | none => []
        | some w => (ws ++ w) :: collectCapUnits fuel (rest.drop (ws.length + w.length))

/-- `\b([A-Z][a-z]+(?:\s+[A-Z][a-z]+)*)\b` at the current position (the
leading `\b` is checked by the caller): greedy unit chain, dropping the last
unit when the trailing `\b` fails after it (the boundary after the previous
unit is the unit's leading whitespace, hence always valid). -/
def capPhraseAt (cs : List Char) : Option (List Char) :=
  match capWordAt cs with
  | none => none
  | some w1 =>
      let units := collectCapUnits cs.length (cs.drop w1.length)
      let full := w1 ++ units.join
      match (cs.drop full.length).head? with
      | some c =>
          if isWordChar c then
            if units.isEmpty then none else some (w1 ++ units.dropLast.join)
          else some full
      | none => some full

/-- `re.findall(r'\b([A-Z][a-z]+(?:\s+[A-Z][a-z]+)*)\b', question)`:
non-overlapping leftmost matches; `prevWord` tracks whether the previous
character was a word character (for `\b`). -/
def findCapPhrases : Nat → List Char → Bool → List String
  | 0, _, _ => []
  | _, [], _ => []
  | fuel + 1, c :: r, prevWord =>
      if !prevWord then
        match capPhraseAt (c :: r) with
        | some phrase =>
            (⟨phrase⟩ : String) :: findCapPhrases fuel ((c :: r).drop phrase.length) true
        | none => findCapPhrases fuel r (isWordChar c)
      else findCapPhrases fuel r (isWordChar c)

/-- `re.findall(r'["\x27]([^"\x27]+)["\x27]', question)`: non-overlapping
quoted-content matches (either quote opens, either closes). -/
def findQuoted : Nat → List Char → List String
  | 0, _ => []
  | _, [] => []
  | fuel + 1, c :: r =>
      if c == '"' || c == '\'' then
        let content := r.takeWhile (fun ch => !(ch == '"') && !(ch == '\''))
        if content.isEmpty then findQuoted fuel r
        else
          match r.drop content.length with
          | q2 :: rest2 =>
              if q2 == '"' || q2 == '\'' then (⟨content⟩ : String) :: findQuoted fuel rest2
              else findQuoted fuel r
          | [] => findQuoted fuel r
      else findQuoted fuel r

/-- The pattern-3 loop of `try_direct_query`: `for entity in
potential_entities[:3]: if len(entity) > 2: (run the search; return the
generated answer on non-empty rows)`.  Returns (return-value-if-returned,
store calls, searches attempted). -/
def p3Loop (g : Graph) (sid : Option String) (llm : Option (String → CallResult))
    (question : String) : List String → Option (Option String) × Nat × Nat
  | [] => (none, 0, 0)
  | e :: rest =>
      if decide (2 < e.length) then
        if !(generalRows g sid e).isEmpty then
          (some (generate_answer_from_results llm question (generalRows g sid e)), 1, 1)
        else
          ((p3Loop g sid llm question rest).1,
            (p3Loop g sid llm question rest).2.1 + 1,
            (p3Loop g sid llm question rest).2.2 + 1)
      else p3Loop g sid llm question rest

/-- Pattern-1 stage of `try_direct_query` (interaction questions): the
returned value when one of its two searches found rows, paired with the number
of store calls it issued. -/
def p1Stage (g : Graph) (sid : Option String) (llm : Option (String → CallResult))
    (question : String) : Option (Option String) × Nat :=
  if strContainsSub (pyLower question) "interact" then
    match searchInteractEntity question.toList with
    | some entity =>
        if !(interactExactRows g sid entity).isEmpty then
          (some (generate_answer_from_results llm question (interactExactRows g sid entity)), 1)
        else if !(interactContainsRows g sid entity).isEmpty then
          (some (generate_answer_from_results llm question (interactContainsRows g sid entity)), 2)
        else (none, 2)
    | none => (none, 0)
  else (none, 0)

/-- Pattern-2 stage of `try_direct_query` ("what is X" questions). -/
def p2Stage (g : Graph) (sid : Option String) (llm : Option (String → CallResult))
    (question : String) : Option (Option String) × Nat :=
  if strContainsSub (pyLower question) "what is"
      || strContainsSub (pyLower question) "tell me about"
      || strContainsSub (pyLower question) "what are" then
    match searchAboutEntity (pyLower question).toList with
    | some grp =>
        if !(aboutRows g sid (pyStrip ⟨grp.toList⟩)).isEmpty then
          (some (generate_answer_from_results llm question
            (aboutRows g sid (pyStrip ⟨grp.toList⟩))), 1)
        else (none, 1)
    | none => (none, 0)
  else (none, 0)

/-- The pattern-3 candidate list: capitalized phrases then quoted strings. -/
def p3Candidates (question : String) : List String :=
  findCapPhrases question.toList.length question.toList false
    ++ findQuoted question.toList.length question.toList

/-- `try_direct_query(question, graph, llm)`: the three heuristic patterns in
source order, each returning the synthesized answer as soon as one of its
parameterized searches yields rows (even when the synthesized answer itself is
falsy).  Returns (answer, store calls issued, pattern-3 searches attempted).
The per-pattern `try/except` blocks only guard store connectivity, which the
interpreted store always provides. -/
def try_direct_query (g : Graph) (sid : Option String)
    (llm : Option (String → CallResult)) (question : String) :
    Option String × Nat × Nat :=
  match p1Stage g sid llm question with
  | (some v, c1) => (v, c1, 0)
  | (none, c1) =>
      match p2Stage g sid llm question with
      | (some v, c2) => (v, c1 + c2, 0)
      | (none, c2) =>
          match p3Loop g sid llm question ((p3Candidates question).take 3) with
          | (some v, c3, s3) => (v, c1 + c2 + c3, s3)
          | (none, c3, s3) => (none, c1 + c2 + c3, s3)

/-- The early return when the session's node count is zero. -/
def emptyGraphMsg : String :=
  "The knowledge graph is empty. Please upload and process PDF files first to populate the graph with data."

/-- The terminal no-result message of the dict branch. -/
def noInfoMsg (question : String) : String :=
  "I couldn't find information about '" ++ question
    ++ "' in the knowledge graph. Make sure you've uploaded and processed PDF files, and try asking about specific entities, relationships, or concepts from your research papers."

/-- The terminal no-result message of the plain-string branch. -/
def noInfoMsg2 (question : String) : String :=
  "I couldn't find information about '" ++ question
    ++ "' in the knowledge graph. Please ensure you've uploaded PDFs and processed them, then try asking about specific entities or relationships."

/-- The unsatisfactory-answer blacklist of `query_graph`. -/
def badPhrases : List String :=
  ["i don't know", "i do not know", "cannot answer", "no information", "unable to",
   "no results"]

/-- `any(phrase in answer_lower for phrase in [...]) or not answer` (with
`answer_lower = answer.lower() if answer else ""`). -/
def isBadAnswer (answer : String) : Bool :=
  badPhrases.any (fun p =>
    strContainsSub (if answer == "" then "" else pyLower answer) p) || answer == ""

/-- The repair loop of `query_graph` over the intermediate steps: for each
step carrying a query, if `fix_cypher_query` changes it, re-execute the fixed
query (one store call, exceptions swallowed); on non-empty rows return the
synthesized answer when it is truthy.  Returns (returned answer, store calls,
whether the loop reassigned `answer` to a falsy value before falling
through — observationally the reassigned value is always falsy, rendered
`""`). -/
def repairLoop (env : QueryEnv) (question : String) :
    List (Option String) → Option String × Nat × Bool
  | [] => (none, 0, false)
  | step :: rest =>
      match step with
      | none => repairLoop env question rest
      | some original_query =>
          if fix_cypher_query original_query == original_query then
            repairLoop env question rest
          else
            match env.runRaw (fix_cypher_query original_query) with
            | .error _ =>
                ((repairLoop env question rest).1, (repairLoop env question rest).2.1 + 1,
                  (repairLoop env question rest).2.2)
            | .ok rows =>
                if rows.isEmpty then
                  ((repairLoop env question rest).1, (repairLoop env question rest).2.1 + 1,
                    (repairLoop env question rest).2.2)
                else
                  match generate_answer_from_results (some env.llm) question rows with
                  | some a =>
                      if a == "" then
                        ((repairLoop env question rest).1,
                          (repairLoop env question rest).2.1 + 1, true)
                      else (some a, 1, false)
                  | none =>
                      ((repairLoop env question rest).1,
                        (repairLoop env question rest).2.1 + 1, true)

/-- The common tail of the dict branch: replace a blank answer by
`str(result)`, then either return it or fall to a final `try_direct_query`
and the terminal message. -/
def dictTail (g : Graph) (sid : Option String) (env : QueryEnv) (question : String)
    (answerIn asStr : String) : String × Nat :=
  let answer2 := if answerIn == "" || pyStrip answerIn == "" then asStr else answerIn
  if answer2 == "" || strContainsSub (pyLower answer2) "don't know"
      || strContainsSub (pyLower answer2) "no information" then
    match (try_direct_query g sid (some env.llm) question).1 with
    | some d =>
        if d == "" then (noInfoMsg question, (try_direct_query g sid (some env.llm) question).2.1)
        else (d, (try_direct_query g sid (some env.llm) question).2.1)
    | none => (noInfoMsg question, (try_direct_query g sid (some env.llm) question).2.1)
  else (answer2, 0)

/-- The dict-result branch of `query_graph`. -/
def dictBranch (g : Graph) (sid : Option String) (env : QueryEnv) (question : String)
    (res ansF : Option String) (steps : List (Option String)) (asStr : String) :
    String × Nat :=
  let answer0 :=
    match res with
    | some v => v
    | none => match ansF with | some v => v | none => ""
  if isBadAnswer answer0 then
    match (repairLoop env question steps).1 with
    | some a => (a, (repairLoop env question steps).2.1)
    | none =>
        match (try_direct_query g sid (some env.llm) question).1 with
        | some d =>
            if d == "" then
              ((dictTail g sid env question
                  (if (repairLoop env question steps).2.2 then "" else answer0) asStr).1,
                (repairLoop env question steps).2.1
                  + (try_direct_query g sid (some env.llm) question).2.1
                  + (dictTail g sid env question
                      (if (repairLoop env question steps).2.2 then "" else answer0) asStr).2)
            else (d, (repairLoop env question steps).2.1
              + (try_direct_query g sid (some env.llm) question).2.1)
        | none =>
            ((dictTail g sid env question
                (if (repairLoop env question steps).2.2 then "" else answer0) asStr).1,
              (repairLoop env question steps).2.1
                + (try_direct_query g sid (some env.llm) question).2.1
                + (dictTail g sid env question
                    (if (repairLoop env question steps).2.2 then "" else answer0) asStr).2)
  else
    ((dictTail g sid env question answer0 asStr).1,
      (dictTail g sid env question answer0 asStr).2)

/-- The plain-string-result branch of `query_graph`. -/
def strBranch (g : Graph) (sid : Option String) (env : QueryEnv) (question : String)
    (s : String) : String × Nat :=
  if s == "" || strContainsSub (pyLower s) "don't know" then
    match (try_direct_query g sid (some env.llm) question).1 with
    | some d =>
        if d == "" then (noInfoMsg2 question, (try_direct_query g sid (some env.llm) question).2.1)
        else (d, (try_direct_query g sid (some env.llm) question).2.1)
    | none => (noInfoMsg2 question, (try_direct_query g sid (some env.llm) question).2.1)
  else (s, 0)

/-- The retry loop of `GraphTools.query_graph` (`max_retries = 3`), over the
remaining attempt indices.  Each iteration first runs the session-scoped node
count (one store call) and returns the empty-graph message when it is zero;
then the chain outcome is dispatched, with rate-limit exceptions retried and
other exceptions returned as error messages.  The numeric component counts
every store call issued (the count query, repaired-query re-executions, and
`try_direct_query`'s searches). -/
def queryAttempts (g : Graph) (sid : Option String) (env : QueryEnv) (question : String) :
    List Nat → String × Nat
  | [] => ("Failed to query graph after multiple retries.", 0)
  | attempt :: rest =>
      let node_count :=
        match sidFilter sid with
        | some s => sessionNodeCount g s
        | none => g.nodes.length
      if node_count == 0 then (emptyGraphMsg, 1)
      else
        match env.chain attempt with
        | .raiseE msg =>
            if isRateLimitError msg then
              if decide (attempt < 3 - 1) then
                ((queryAttempts g sid env question rest).1,
                  (queryAttempts g sid env question rest).2 + 1)
              else
                ("Rate limit exceeded. Please wait a few minutes and try again. Error: "
                  ++ msg, 1)
            else ("Error querying graph: " ++ msg, 1)
        | .dictRes res ansF steps asStr =>
            ((dictBranch g sid env question res ansF steps asStr).1,
              (dictBranch g sid env question res ansF steps asStr).2 + 1)
        | .strRes s =>
            ((strBranch g sid env question s).1, (strBranch g sid env question s).2 + 1)

/-- `GraphTools.query_graph(question)` with the session id and external
components explicit (the source reads the session id from ambient Streamlit
state and module globals). -/
def query_graph (g : Graph) (sid : Option String) (env : QueryEnv) (question : String) :
    String × Nat :=
  queryAttempts g sid env question [0, 1, 2]

/-- The store state with no nodes and no relationships. -/
def emptyGraph : Graph := ⟨[], []⟩

/-! ## Invariance lemmas for session isolation (C1) -/

theorem mergeRel_nodes (g : Graph) (h t : NodeP) (ty : String) (s : Option String) :
    (mergeRel g h t ty s).nodes = g.nodes := by
  unfold mergeRel; split <;> rfl

theorem mergeNode_rels (g : Graph) (n : NodeP) :
    (mergeNode g n).rels = g.rels := by
  unfold mergeNode; split <;> rfl

theorem mergeNode_countP (g : Graph) (n : NodeP) (p : NodeP → Bool) (hp : p n = false) :
    (mergeNode g n).nodes.countP p = g.nodes.countP p := by
  unfold mergeNode; split
  · rfl
  · simp [List.countP_append, List.countP_singleton, hp]

theorem mergeRel_countP (g : Graph) (h t : NodeP) (ty : String) (s : Option String)
    (q : RelP → Bool)
    (hq : ∀ r : RelP, q { r with sid := s } = q r)
    (hnew : q ⟨h, t, ty, s⟩ = false) :
    (mergeRel g h t ty s).rels.countP q = g.rels.countP q := by
  unfold mergeRel; split
  · simp only [List.countP_map]
    refine List.countP_congr (fun r _ => ?_)
    by_cases hm : relKeyMatches r h t ty <;> simp [Function.comp, hm, hq r]
  · simp [List.countP_append, List.countP_singleton, hnew]

theorem importRow_nodes_countP (g : Graph) (row : TripleD) (s : Option String)
    (p : NodeP → Bool) (hp : ∀ name, p ⟨name, s⟩ = false) :
    (importRow g row s).nodes.countP p = g.nodes.countP p := by
  unfold importRow
  rw [mergeRel_nodes, mergeNode_countP _ _ _ (hp row.tail), mergeNode_countP _ _ _ (hp row.head)]

theorem importRow_rels_countP (g : Graph) (row : TripleD) (s : Option String)
    (q : RelP → Bool)
    (hq : ∀ r : RelP, q { r with sid := s } = q r)
    (hnew : ∀ n1 n2 ty, q ⟨⟨n1, s⟩, ⟨n2, s⟩, ty, s⟩ = false) :
    (importRow g row s).rels.countP q = g.rels.countP q := by
  unfold importRow
  rw [mergeRel_countP _ _ _ _ _ _ hq (hnew row.head row.tail row.relation),
    mergeNode_rels, mergeNode_rels]

theorem importTriples_nodes_countP (rows : List TripleD) (g : Graph) (s : Option String)
    (p : NodeP → Bool) (hp : ∀ name, p ⟨name, s⟩ = false) :
    (importTriples g rows s).nodes.countP p = g.nodes.countP p := by
  induction rows generalizing g with
  | nil => rfl
  | cons row rest ih =>
      show (importTriples (importRow g row s) rest s).nodes.countP p = _
      rw [ih, importRow_nodes_countP _ _ _ _ hp]

theorem importTriples_rels_countP (rows : List TripleD) (g : Graph) (s : Option String)
    (q : RelP → Bool)
    (hq : ∀ r : RelP, q { r with sid := s } = q r)
    (hnew : ∀ n1 n2 ty, q ⟨⟨n1, s⟩, ⟨n2, s⟩, ty, s⟩ = false) :
    (importTriples g rows s).rels.countP q = g.rels.countP q := by
  induction rows generalizing g with
  | nil => rfl
  | cons row rest ih =>
      show (importTriples (importRow g row s) rest s).rels.countP q = _
      rw [ih, importRow_rels_countP _ _ _ _ hq hnew]

/-! ## Idempotence machinery for the MERGE-based import (C2) -/

theorem mergeNode_mem_self (g : Graph) (n : NodeP) : n ∈ (mergeNode g n).nodes := by
  unfold mergeNode; split
  · assumption
  · simp

theorem mergeNode_mem_mono (g : Graph) (n m : NodeP) (h : m ∈ g.nodes) :
    m ∈ (mergeNode g n).nodes := by
  unfold mergeNode; split
  · exact h
  · simp [h]

theorem sid_update_self (r : RelP) (s : Option String) (h : r.sid = s) :
    ({ r with sid := s } : RelP) = r := by
  cases r; cases h; rfl

theorem map_eq_self_of_eq {α : Type} {f : α → α} {l : List α} (h : ∀ a ∈ l, f a = a) :
    l.map f = l := by
  induction l with
  | nil => rfl
  | cons a t ih =>
      simp only [List.map_cons]
      rw [h a (by simp), ih (fun b hb => h b (by simp [hb]))]

theorem relKeyMatches_update (r : RelP) (h t : NodeP) (ty : String) (s : Option String) :
    relKeyMatches { r with sid := s } h t ty ↔ relKeyMatches r h t ty := Iff.rfl

theorem mergeRel_pos (g : Graph) (h t : NodeP) (ty : String) (s : Option String)
    (hany : g.rels.any (fun r => decide (relKeyMatches r h t ty)) = true) :
    mergeRel g h t ty s =
      { g with rels := (g.rels.map
          (fun r => if relKeyMatches r h t ty then { r with sid := s } else r)) } := by
  unfold mergeRel; rw [if_pos hany]

theorem mergeRel_neg (g : Graph) (h t : NodeP) (ty : String) (s : Option String)
    (hany : g.rels.any (fun r => decide (relKeyMatches r h t ty)) = false) :
    mergeRel g h t ty s = { g with rels := g.rels ++ [⟨h, t, ty, s⟩] } := by
  unfold mergeRel; rw [if_neg (by rw [hany]; exact Bool.false_ne_true)]

theorem importRow_of_absorbed (g : Graph) (row : TripleD) (s : Option String)
    (hab : RowAbsorbed g row s) : importRow g row s = g := by
  obtain ⟨hh, ht, ⟨r0, hr0, hm0⟩, hall⟩ := hab
  unfold importRow
  have e1 : mergeNode g ⟨row.head, s⟩ = g := by unfold mergeNode; rw [if_pos hh]
  rw [e1]
  have e2 : mergeNode g ⟨row.tail, s⟩ = g := by unfold mergeNode; rw [if_pos ht]
  rw [e2]
  rw [mergeRel_pos g _ _ _ _ (List.any_eq_true.mpr ⟨r0, hr0, decide_eq_true hm0⟩)]
  have e3 : g.rels.map
      (fun r => if relKeyMatches r ⟨row.head, s⟩ ⟨row.tail, s⟩ row.relation
        then { r with sid := s } else r) = g.rels := by
    refine map_eq_self_of_eq (fun r hr => ?_)
    by_cases hm : relKeyMatches r ⟨row.head, s⟩ ⟨row.tail, s⟩ row.relation
    · rw [if_pos hm]; exact sid_update_self r s (hall r hr hm)
    · rw [if_neg hm]
  rw [e3]

theorem importRow_absorbed_self (g : Graph) (row : TripleD) (s : Option String) :
    RowAbsorbed (importRow g row s) row s := by
  unfold importRow
  have hmemh : (⟨row.head, s⟩ : NodeP) ∈ (mergeNode (mergeNode g ⟨row.head, s⟩) ⟨row.tail, s⟩).nodes :=
    mergeNode_mem_mono _ _ _ (mergeNode_mem_self g _)
  have hmemt : (⟨row.tail, s⟩ : NodeP) ∈ (mergeNode (mergeNode g ⟨row.head, s⟩) ⟨row.tail, s⟩).nodes :=
    mergeNode_mem_self _ _
  generalize (mergeNode (mergeNode g ⟨row.head, s⟩) ⟨row.tail, s⟩) = g2 at hmemh hmemt
  refine ⟨by rw [mergeRel_nodes]; exact hmemh, by rw [mergeRel_nodes]; exact hmemt, ?_, ?_⟩
  · by_cases hany : g2.rels.any
        (fun r => decide (relKeyMatches r ⟨row.head, s⟩ ⟨row.tail, s⟩ row.relation)) = true
    · rw [mergeRel_pos _ _ _ _ _ hany]
      obtain ⟨r0, hr0, hm0⟩ := List.any_eq_true.mp hany
      refine ⟨{ r0 with sid := s }, ?_, ?_⟩
      · exact List.mem_map.mpr ⟨r0, hr0, by rw [if_pos (of_decide_eq_true hm0)]⟩
      · exact (relKeyMatches_update r0 _ _ row.relation s).mpr (of_decide_eq_true hm0)
    · rw [mergeRel_neg _ _ _ _ _ (Bool.eq_false_iff.mpr hany)]
      exact ⟨⟨⟨row.head, s⟩, ⟨row.tail, s⟩, row.relation, s⟩, by simp, ⟨rfl, rfl, rfl⟩⟩
  · by_cases hany : g2.rels.any
        (fun r => decide (relKeyMatches r ⟨row.head, s⟩ ⟨row.tail, s⟩ row.relation)) = true
    · rw [mergeRel_pos _ _ _ _ _ hany]
      intro x hx hmx
      obtain ⟨r0, hr0, hfr0⟩ := List.mem_map.mp hx
      by_cases hm : relKeyMatches r0 ⟨row.head, s⟩ ⟨row.tail, s⟩ row.relation
      · rw [if_pos hm] at hfr0; rw [← hfr0]
      · rw [if_neg hm] at hfr0; rw [← hfr0] at hmx; exact absurd hmx hm
    · rw [mergeRel_neg _ _ _ _ _ (Bool.eq_false_iff.mpr hany)]
      intro x hx hmx
      rcases List.mem_append.mp hx with hold | hnew
      · exfalso
        exact hany (List.any_eq_true.mpr ⟨x, hold, decide_eq_true hmx⟩)
      · have : x = ⟨⟨row.head, s⟩, ⟨row.tail, s⟩, row.relation, s⟩ := by simpa using hnew
        rw [this]

theorem importRow_preserves_absorbed (g : Graph) (row row' : TripleD) (s : Option String)
    (hab : RowAbsorbed g row s) : RowAbsorbed (importRow g row' s) row s := by
  obtain ⟨hh, ht, ⟨r0, hr0, hm0⟩, hall⟩ := hab
  unfold importRow
  have hh2 : (⟨row.head, s⟩ : NodeP) ∈ (mergeNode (mergeNode g ⟨row'.head, s⟩) ⟨row'.tail, s⟩).nodes :=
    mergeNode_mem_mono _ _ _ (mergeNode_mem_mono _ _ _ hh)
  have ht2 : (⟨row.tail, s⟩ : NodeP) ∈ (mergeNode (mergeNode g ⟨row'.head, s⟩) ⟨row'.tail, s⟩).nodes :=
    mergeNode_mem_mono _ _ _ (mergeNode_mem_mono _ _ _ ht)
  have hrels : (mergeNode (mergeNode g ⟨row'.head, s⟩) ⟨row'.tail, s⟩).rels = g.rels := by
    rw [mergeNode_rels, mergeNode_rels]
  refine ⟨by rw [mergeRel_nodes]; exact hh2, by rw [mergeRel_nodes]; exact ht2, ?_, ?_⟩
  · by_cases hany : (mergeNode (mergeNode g ⟨row'.head, s⟩) ⟨row'.tail, s⟩).rels.any
        (fun r => decide (relKeyMatches r ⟨row'.head, s⟩ ⟨row'.tail, s⟩ row'.relation)) = true
    · rw [mergeRel_pos _ _ _ _ _ hany]
      dsimp only
      rw [hrels]
      by_cases hm : relKeyMatches r0 ⟨row'.head, s⟩ ⟨row'.tail, s⟩ row'.relation
      · exact ⟨{ r0 with sid := s }, List.mem_map.mpr ⟨r0, hr0, by rw [if_pos hm]⟩,
          (relKeyMatches_update r0 _ _ _ s).mpr hm0⟩
      · exact ⟨r0, List.mem_map.mpr ⟨r0, hr0, by rw [if_neg hm]⟩, hm0⟩
    · rw [mergeRel_neg _ _ _ _ _ (Bool.eq_false_iff.mpr hany)]
      dsimp only
      rw [hrels]
      exact ⟨r0, List.mem_append_left _ hr0, hm0⟩
  · by_cases hany : (mergeNode (mergeNode g ⟨row'.head, s⟩) ⟨row'.tail, s⟩).rels.any
        (fun r => decide (relKeyMatches r ⟨row'.head, s⟩ ⟨row'.tail, s⟩ row'.relation)) = true
    · rw [mergeRel_pos _ _ _ _ _ hany]
      dsimp only
      rw [hrels]
      intro x hx hmx
      obtain ⟨r1, hr1, hfr1⟩ := List.mem_map.mp hx
      by_cases hm : relKeyMatches r1 ⟨row'.head, s⟩ ⟨row'.tail, s⟩ row'.relation
      · rw [if_pos hm] at hfr1; rw [← hfr1]
      · rw [if_neg hm] at hfr1; rw [← hfr1] at hmx ⊢; exact hall r1 hr1 hmx
    · rw [mergeRel_neg _ _ _ _ _ (Bool.eq_false_iff.mpr hany)]
      dsimp only
      rw [hrels]
      intro x hx hmx
      rcases List.mem_append.mp hx with hold | hnew
      · exact hall x hold hmx
      · have : x = ⟨⟨row'.head, s⟩, ⟨row'.tail, s⟩, row'.relation, s⟩ := by simpa using hnew
        rw [this]

theorem importTriples_preserves_absorbed (rows : List TripleD) (g : Graph) (row : TripleD)
    (s : Option String) (hab : RowAbsorbed g row s) :
    RowAbsorbed (importTriples g rows s) row s := by
  induction rows generalizing g with
  | nil => exact hab
  | cons row' rest ih =>
      exact ih (importRow g row' s) (importRow_preserves_absorbed g row row' s hab)

theorem importTriples_absorbs (rows : List TripleD) (g : Graph) (s : Option String) :
    ∀ row ∈ rows, RowAbsorbed (importTriples g rows s) row s := by
  induction rows generalizing g with
  | nil => intro row hrow; cases hrow
  | cons row' rest ih =>
      intro row hrow
      rcases List.mem_cons.mp hrow with heq | hmem
      · subst heq
        exact importTriples_preserves_absorbed rest (importRow g row s) row s
          (importRow_absorbed_self g row s)
      · exact ih (importRow g row' s) row hmem

theorem importTriples_of_all_absorbed (rows : List TripleD) (g : Graph) (s : Option String)
    (h : ∀ row ∈ rows, RowAbsorbed g row s) : importTriples g rows s = g := by
  induction rows with
  | nil => rfl
  | cons row rest ih =>
      show importTriples (importRow g row s) rest s = g
      rw [importRow_of_absorbed g row s (h row (by simp))]
      exact ih (fun r hr => h r (by simp [hr]))

theorem importTriples_idem (g : Graph) (rows : List TripleD) (s : Option String) :
    importTriples (importTriples g rows s) rows s = importTriples g rows s :=
  importTriples_of_all_absorbed rows (importTriples g rows s) s (importTriples_absorbs rows g s)

theorem populate_neo4j_graph (g : Graph) (data : List TripleD) (sid : Option String) :
    (populate_neo4j g data sid).2 = importTriples g data sid := by
  unfold populate_neo4j; split
  · next hda => rw [List.isEmpty_iff.mp hda]; rfl
  · rfl

theorem countP_filter_of_imp {α : Type} (l : List α) (p q : α → Bool)
    (h : ∀ a, p a = true → q a = true) : (l.filter q).countP p = l.countP p := by
  rw [List.countP_filter]
  refine List.countP_congr (fun a _ => ?_)
  constructor
  · intro hpq; exact (Bool.and_eq_true_iff.mp hpq).1
  · intro hp; exact Bool.and_eq_true_iff.mpr ⟨hp, h a hp⟩

theorem countP_filter_of_excl {α : Type} (l : List α) (p q : α → Bool)
    (h : ∀ a, p a = true → q a = false) : (l.filter q).countP p = 0 := by
  rw [List.countP_filter]
  refine List.countP_eq_zero.mpr (fun a _ hpq => ?_)
  obtain ⟨hp, hq⟩ := Bool.and_eq_true_iff.mp hpq
  rw [h a hp] at hq
  cases hq

/-- C1.  For every pair of distinct sessions A and B (session ids are generated
by `uuid.uuid4()` and hence non-empty; an empty id would take the global branch
of the Python truthiness test `if session_id:`), the statistics returned by
`get_graph_stats(session_id=A)` — node count, relationship count and every
relation-type count — are unaffected by ingesting any triple batch under
session B via `populate_neo4j`, and `clear_database(session_id=A)` brings
session A's node and relationship counts to zero while `get_graph_stats(B)`
and B's relation-type counts are unchanged. -/
theorem claim_C1_session_isolation (g : Graph) (A B : String) (ts : List TripleD)
    (hAB : A ≠ B) (hA : A ≠ "") (hB : B ≠ "") :
    get_graph_stats (populate_neo4j g ts (some B)).2 (some A) = get_graph_stats g (some A) ∧
    (∀ ty, relTypeCount (populate_neo4j g ts (some B)).2 (some A) ty
      = relTypeCount g (some A) ty) ∧
    get_graph_stats (clear_database g (some A)) (some A) = ⟨0, 0⟩ ∧
    get_graph_stats (clear_database g (some A)) (some B) = get_graph_stats g (some B) ∧
    (∀ ty, relTypeCount (clear_database g (some A)) (some B) ty
      = relTypeCount g (some B) ty) := by
  have hsfA : sidFilter (some A) = some A := by simp [sidFilter, hA]
  have hsfB : sidFilter (some B) = some B := by simp [sidFilter, hB]
  have hBA : ((some B : Option String) == some A) = false :=
    beq_eq_false_iff_ne.mpr (fun h => hAB (Option.some_inj.mp h).symm)
  have hABeq : ((some A : Option String) == some B) = false :=
    beq_eq_false_iff_ne.mpr (fun h => hAB (Option.some_inj.mp h))
  refine ⟨?_, ?_, ?_, ?_, ?_⟩
  · rw [populate_neo4j_graph]
    simp only [get_graph_stats, hsfA]
    congr 1
    · exact importTriples_nodes_countP ts g (some B) _ (fun name => by simp [hBA])
    · exact importTriples_rels_countP ts g (some B) _ (fun r => rfl)
        (fun n1 n2 ty => by simp [hBA])
  · intro ty
    rw [populate_neo4j_graph]
    simp only [relTypeCount, hsfA]
    exact importTriples_rels_countP ts g (some B) _ (fun r => rfl)
      (fun n1 n2 ty' => by simp [hBA])
  · simp only [get_graph_stats, clear_database, hsfA, sessionNodeCount, sessionRelCount]
    congr 1
    · exact countP_filter_of_excl _ _ _ (fun n hp => by simp_all)
    · refine countP_filter_of_excl _ _ _ (fun r hp => ?_)
      obtain ⟨h1, h2⟩ := Bool.and_eq_true_iff.mp hp
      simp [h1, h2]
  · simp only [get_graph_stats, clear_database, hsfA, hsfB, sessionNodeCount, sessionRelCount]
    congr 1
    · refine countP_filter_of_imp _ _ _ (fun n hp => ?_)
      rw [eq_of_beq hp, hBA]
      rfl
    · refine countP_filter_of_imp _ _ _ (fun r hp => ?_)
      obtain ⟨h1, h2⟩ := Bool.and_eq_true_iff.mp hp
      rw [eq_of_beq h1, eq_of_beq h2, hBA]
      rfl
  · intro ty
    simp only [relTypeCount, clear_database, hsfA, hsfB]
    refine countP_filter_of_imp _ _ _ (fun r hp => ?_)
    obtain ⟨h12, _⟩ := Bool.and_eq_true_iff.mp hp
    obtain ⟨h1, h2⟩ := Bool.and_eq_true_iff.mp h12
    rw [eq_of_beq h1, eq_of_beq h2, hBA]
    rfl

/-- Witness for C1 on the concrete two-session store of
`verify_session_isolation.py` (2 entities + 1 edge under `sessA`, 1 entity
under `sessB`), ingesting a concrete batch under `sessB`. -/
theorem claim_C1_session_isolation_witness :
    (("sessA" : String) ≠ "sessB" ∧ ("sessA" : String) ≠ "" ∧ ("sessB" : String) ≠ "") ∧
    get_graph_stats (populate_neo4j twoSessionStore sampleBatch (some "sessB")).2 (some "sessA")
      = get_graph_stats twoSessionStore (some "sessA") ∧
    relTypeCount (populate_neo4j twoSessionStore sampleBatch (some "sessB")).2 (some "sessA") "TEST"
      = relTypeCount twoSessionStore (some "sessA") "TEST" ∧
    get_graph_stats (clear_database twoSessionStore (some "sessA")) (some "sessA") = ⟨0, 0⟩ ∧
    get_graph_stats (clear_database twoSessionStore (some "sessA")) (some "sessB")
      = get_graph_stats twoSessionStore (some "sessB") ∧
    relTypeCount (clear_database twoSessionStore (some "sessA")) (some "sessB") "TEST"
      = relTypeCount twoSessionStore (some "sessB") "TEST" := by
  have h := claim_C1_session_isolation twoSessionStore "sessA" "sessB" sampleBatch
    (by decide) (by decide) (by decide)
  exact ⟨⟨by decide, by decide, by decide⟩, h.1, h.2.1 "TEST", h.2.2.1, h.2.2.2.1,
    h.2.2.2.2 "TEST"⟩

/-- C2.  Ingesting the same triple list twice under the same session via
`populate_neo4j` (the MERGE-based batched upsert) returns the same
(success, count) outcome and leaves the store in the identical state as
ingesting it once — in particular all node/relationship statistics agree —
and produces no error (an empty batch yields the same warning outcome
`(False, 0)` both times, never an exception). -/
theorem claim_C2_idempotent_merge (g : Graph) (ts : List TripleD) (s : String) :
    populate_neo4j (populate_neo4j g ts (some s)).2 ts (some s)
      = populate_neo4j g ts (some s) ∧
    (∀ s', get_graph_stats (populate_neo4j (populate_neo4j g ts (some s)).2 ts (some s)).2 s'
      = get_graph_stats (populate_neo4j g ts (some s)).2 s') := by
  have h1 : populate_neo4j (populate_neo4j g ts (some s)).2 ts (some s)
      = populate_neo4j g ts (some s) := by
    by_cases hd : ts.isEmpty
    · simp [populate_neo4j, hd]
    · rw [populate_neo4j_graph]
      simp [populate_neo4j, hd, importTriples_idem]
  exact ⟨h1, fun s' => by rw [h1]⟩

theorem filter_length_add_compl {α : Type} (l : List α) (p : α → Bool) :
    (l.filter p).length + (l.filter (fun a => !(p a))).length = l.length := by
  induction l with
  | nil => rfl
  | cons a t ih => by_cases h : p a = true <;> simp [List.filter_cons, h] <;> omega

/-- C3.  The TTL sweep `cleanup_old_data` (modelled from the spec — see its
doc comment — since only its call site `app.py` line 40, invoked once at
process start with a 24-hour threshold, is in the provided sources) retains
exactly the items whose age is within the threshold, deletes every item whose
age exceeds it, and returns the count of deleted items. -/
theorem claim_C3_ttl_sweep (g : TimedGraph) (hours : Nat) :
    (∀ p : NodeP × Nat, p ∈ (cleanup_old_data g hours).2.nodes ↔ p ∈ g.nodes ∧ p.2 ≤ hours) ∧
    (∀ p : RelP × Nat, p ∈ (cleanup_old_data g hours).2.rels ↔ p ∈ g.rels ∧ p.2 ≤ hours) ∧
    (cleanup_old_data g hours).1
      = (g.nodes.length - (cleanup_old_data g hours).2.nodes.length)
        + (g.rels.length - (cleanup_old_data g hours).2.rels.length) := by
  refine ⟨?_, ?_, ?_⟩
  · intro p
    simp [cleanup_old_data, List.mem_filter, Nat.not_lt]
  · intro p
    simp [cleanup_old_data, List.mem_filter, Nat.not_lt]
  · show (g.nodes.filter _).length + (g.rels.filter _).length = _
    have hn := filter_length_add_compl g.nodes (fun p => decide (hours < p.2))
    have hr := filter_length_add_compl g.rels (fun p => decide (hours < p.2))
    have en : (g.nodes.filter (fun p => decide (¬ hours < p.2)))
        = (g.nodes.filter (fun p => !(decide (hours < p.2)))) :=
      List.filter_congr (fun a _ => by rw [decide_not])
    have er : (g.rels.filter (fun p => decide (¬ hours < p.2)))
        = (g.rels.filter (fun p => !(decide (hours < p.2)))) :=
      List.filter_congr (fun a _ => by rw [decide_not])
    simp only [cleanup_old_data, en, er]
    omega

/-- Witness for C3, the spec's own example at threshold 24h: an entity aged
25 hours is deleted, an entity aged 1 hour is retained, and the deleted count
is the number of removed items. -/
theorem claim_C3_ttl_sweep_witness :
    (⟨⟨"old", some "s1"⟩, 25⟩ : NodeP × Nat) ∉
      (cleanup_old_data ⟨[⟨⟨"old", some "s1"⟩, 25⟩, ⟨⟨"fresh", some "s2"⟩, 1⟩], []⟩ 24).2.nodes ∧
    (⟨⟨"fresh", some "s2"⟩, 1⟩ : NodeP × Nat) ∈
      (cleanup_old_data ⟨[⟨⟨"old", some "s1"⟩, 25⟩, ⟨⟨"fresh", some "s2"⟩, 1⟩], []⟩ 24).2.nodes ∧
    (cleanup_old_data ⟨[⟨⟨"old", some "s1"⟩, 25⟩, ⟨⟨"fresh", some "s2"⟩, 1⟩], []⟩ 24).1 = 1 := by
  have h := claim_C3_ttl_sweep ⟨[⟨⟨"old", some "s1"⟩, 25⟩, ⟨⟨"fresh", some "s2"⟩, 1⟩], []⟩ 24
  refine ⟨fun hmem => ?_, (h.1 _).mpr ⟨by decide, by decide⟩, by rw [h.2.2]; decide⟩
  have := (h.1 _).mp hmem
  omega

/-- C6 counterexample.  The claim says a store failure inside `get_graph_stats`
degrades to an empty/zero statistics result; on a failing connection the call
instead propagates the failure (there is no `except` clause — only a `finally`
that closes the driver), so the result is the error, not `ok ⟨0, 0⟩`. -/
theorem claim_C6_counterexample :
    get_graph_statsE (Except.error "ServiceUnavailable: connection refused") (some "sessA")
      = Except.error "ServiceUnavailable: connection refused" ∧
    get_graph_statsE (Except.error "ServiceUnavailable: connection refused") (some "sessA")
      ≠ Except.ok ⟨0, 0⟩ :=
  ⟨rfl, fun h => Except.noConfusion h⟩

/-- C6 (amended).  A store/connectivity failure inside `get_graph_stats`
propagates unchanged to the caller — the graceful degradation the spec
describes is implemented by the callers in `app.py`, not inside the statistics
read — while `clear_database` (a non-statistics operation) swallows the
failure and returns `False` instead of surfacing it. -/
theorem claim_C6_stats_failure_propagates (e : String) (sid : Option String) :
    get_graph_statsE (Except.error e) sid = Except.error e ∧
    clear_databaseE (Except.error e) sid = (false, none) :=
  ⟨rfl, rfl⟩

/-! ## Extractor lemmas (C8, C9, C10) -/

theorem ne_empty_of_not_beq {s : String} (h : (!(s == "")) = true) : s ≠ "" := by
  intro he; subst he; simp at h

theorem buildPrimary_fields (items : List JVal) :
    ∀ t ∈ buildPrimary items, t.head ≠ "" ∧ t.relation ≠ "" ∧ t.tail ≠ "" := by
  intro t ht
  unfold buildPrimary at ht
  obtain ⟨v, _, hf⟩ := List.mem_filterMap.mp ht
  cases v with
  | jobj fs =>
      dsimp only at hf
      split at hf
      · next hcond =>
          injection hf with hf
          subst hf
          simp only [Bool.and_eq_true] at hcond
          exact ⟨ne_empty_of_not_beq hcond.1.1.1.1, ne_empty_of_not_beq hcond.1.1.1.2,
            ne_empty_of_not_beq hcond.1.1.2⟩
      · cases hf
  | jstr s => cases hf
  | jnum n => cases hf
  | jbool b => cases hf
  | jnull => cases hf
  | jarr xs => cases hf

theorem primaryParse_fields (env : PyEnv) (content : String) (kg : KnowledgeGraph)
    (h : primaryParse env content = some kg) :
    ∀ t ∈ kg.triples, t.head ≠ "" ∧ t.relation ≠ "" ∧ t.tail ≠ "" := by
  unfold primaryParse at h
  split at h
  · cases h
  · split at h
    · cases h
    · next items _ =>
        split at h
        · split at h
          · cases h
          · injection h with h
            subst h
            exact buildPrimary_fields items
        · cases h
    · cases h

theorem extractAttempts_no_fallback_fields (env : PyEnv) (beh : ExtractBehavior)
    (l : List Nat) (hs : (extractAttempts env beh l).2.2 = 0) :
    ∀ t ∈ (extractAttempts env beh l).1.triples,
      t.head ≠ "" ∧ t.relation ≠ "" ∧ t.tail ≠ "" := by
  induction l with
  | nil => intro t ht; cases ht
  | cons attempt rest ih =>
      cases hm : beh.main attempt with
      | raiseExc msg =>
          simp only [extractAttempts, hm] at hs ⊢
          split at hs
          · next hcond =>
              rw [if_pos hcond]
              exact ih hs
          · next hcond =>
              rw [if_neg hcond]
              split at hs
              · next hcond2 =>
                  rw [if_pos hcond2]
                  exact ih hs
              · next hcond2 =>
                  rw [if_neg hcond2]
                  intro t ht
                  simp at ht
      | resp content =>
          simp only [extractAttempts, hm] at hs ⊢
          split at hs
          · next kg hp =>
              intro t ht
              exact primaryParse_fields env content kg hp t ht
          · next hp =>
              split at hs
              · split at hs
                · simp at hs
                · simp at hs
              · next hcond =>
                  rw [if_neg hcond]
                  intro t ht
                  simp at ht

theorem extractAttempts_main_le (env : PyEnv) (beh : ExtractBehavior) (l : List Nat) :
    (extractAttempts env beh l).2.1 ≤ l.length := by
  induction l with
  | nil => exact Nat.le_refl 0
  | cons attempt rest ih =>
      cases hm : beh.main attempt with
      | raiseExc msg =>
          simp only [extractAttempts, hm, List.length_cons]
          split
          · simpa using Nat.add_le_add_right ih 1
          · split
            · simpa using Nat.add_le_add_right ih 1
            · simp
      | resp content =>
          simp only [extractAttempts, hm, List.length_cons]
          split
          · simp
          · split
            · split <;> simp
            · simp

theorem extractAttempts_simple_le (env : PyEnv) (beh : ExtractBehavior) (l : List Nat) :
    (extractAttempts env beh l).2.2 ≤ 1 := by
  induction l with
  | nil => exact Nat.zero_le 1
  | cons attempt rest ih =>
      cases hm : beh.main attempt with
      | raiseExc msg =>
          simp only [extractAttempts, hm]
          split
          · simpa using ih
          · split
            · simpa using ih
            · simp
      | resp content =>
          simp only [extractAttempts, hm]
          split
          · simp
          · split
            · split <;> simp
            · simp

theorem extractAttempts_all_raise (env : PyEnv) (beh : ExtractBehavior) (l : List Nat)
    (h : ∀ a ∈ l, (beh.main a).isRaise = true) :
    (extractAttempts env beh l).1 = ⟨[]⟩ := by
  induction l with
  | nil => rfl
  | cons attempt rest ih =>
      have ha := h attempt (by simp)
      cases hm : beh.main attempt with
      | resp content => rw [hm] at ha; cases ha
      | raiseExc msg =>
          simp only [extractAttempts, hm]
          split
          · exact ih (fun a haa => h a (by simp [haa]))
          · split
            · exact ih (fun a haa => h a (by simp [haa]))
            · rfl

/-- C8 counterexample.  The claim says every triple returned by
`extract_triples` has non-empty head/relation/tail after stripping, on both
parsing paths.  On the degraded fallback path the truthiness filter runs
*before* `.strip()`, so a whitespace-only `"head"` field passes the filter and
is returned as an empty head: with two rate-limit failures, an unparseable
final main response, and the fallback answering a valid JSON array whose head
is `" "` (exactly what `json.loads` decodes it to), the call returns a triple
with `head = ""`. -/
theorem claim_C8_counterexample :
    (extract_triples envC8 behC8 chunkC8 "Geography").1.triples
      = [⟨"", "located_in", "Paris"⟩] ∧
    ((extract_triples envC8 behC8 chunkC8 "Geography").1.triples.any
      (fun t => t.head == "")) = true := by
  constructor <;> rfl

/-- C8 (amended).  Every triple produced through the primary parsing path has
non-empty head, relation and tail after whitespace stripping (the primary
filter checks the stripped strings); when no fallback-prompt invocation was
issued, every returned triple therefore has non-empty fields.  The degraded
fallback path checks Python truthiness of the raw field values before
stripping, so whitespace-only fields can come back empty there (see the
counterexample). -/
theorem claim_C8_primary_fields_nonempty (env : PyEnv) (beh : ExtractBehavior)
    (chunk domain : String)
    (hs : (extract_triples env beh chunk domain).2.2 = 0) :
    ∀ t ∈ (extract_triples env beh chunk domain).1.triples,
      t.head ≠ "" ∧ t.relation ≠ "" ∧ t.tail ≠ "" := by
  by_cases hc : (chunk == "" || decide ((pyStrip chunk).length < 50)) = true
  · simp only [extract_triples, hc, if_true]
    intro t ht; cases ht
  · simp only [extract_triples, hc, if_false] at hs ⊢
    exact extractAttempts_no_fallback_fields env beh _ hs

/-- Witness for the amended C8 on a run whose first main response is a valid
triple array: no fallback call is made and the returned triple has non-empty
fields. -/
theorem claim_C8_primary_fields_nonempty_witness :
    (extract_triples envC8w behC8w chunkC8 "Biology").2.2 = 0 ∧
    (⟨"tau", "phosphorylated_by", "GSK3B"⟩ : KnowledgeTriple)
      ∈ (extract_triples envC8w behC8w chunkC8 "Biology").1.triples ∧
    (("tau" : String) ≠ "" ∧ ("phosphorylated_by" : String) ≠ ""
      ∧ ("GSK3B" : String) ≠ "") := by
  refine ⟨rfl, by decide, ?_⟩
  exact claim_C8_primary_fields_nonempty envC8w behC8w chunkC8 "Biology" rfl
    ⟨"tau", "phosphorylated_by", "GSK3B"⟩ (by decide)

/-- C9.  Inputs below the minimum viable length short-circuit before any model
call: `process_pdf_file` returns `[]` with zero LLM invocations for text under
100 stripped characters (before domain detection), and `extract_triples`
returns an empty `KnowledgeGraph` with zero LLM invocations for chunks under
50 stripped characters. -/
theorem claim_C9_short_input_short_circuit (env : PyEnv) (pbeh : PdfBehavior)
    (beh : ExtractBehavior) (raw chunk : String) (filename : Option String)
    (domain : String) (h1 : (pyStrip raw).length < 100)
    (h2 : (pyStrip chunk).length < 50) :
    process_pdf_file env pbeh raw filename = ([], 0) ∧
    extract_triples env beh chunk domain = (⟨[]⟩, 0, 0) := by
  constructor
  · unfold process_pdf_file
    rw [if_pos (Bool.or_eq_true_iff.mpr (Or.inr (decide_eq_true h1)))]
  · unfold extract_triples
    rw [if_pos (Bool.or_eq_true_iff.mpr (Or.inr (decide_eq_true h2)))]

/-- Witness for C9: a 10-character scan text and a 4-character chunk. -/
theorem claim_C9_short_input_short_circuit_witness :
    (pyStrip "short scan").length < 100 ∧ (pyStrip "tiny").length < 50 ∧
    process_pdf_file envTrivial behTrivialPdf "short scan" (some "scan.pdf") = ([], 0) ∧
    extract_triples envTrivial behAllRaise "tiny" "Biology" = (⟨[]⟩, 0, 0) := by
  have h := claim_C9_short_input_short_circuit envTrivial behTrivialPdf behAllRaise
    "short scan" "tiny" (some "scan.pdf") "Biology" (by decide) (by decide)
  exact ⟨by decide, by decide, h.1, h.2⟩

/-- C10.  `extract_triples` is total over every model behaviour: it issues at
most 3 main-prompt invocations and at most 1 fallback invocation (so at most
3 attempts), and when every main attempt raises — any messages, rate-limit or
not — the failure path yields the empty triple list.  (Exception safety is
structural: the source's attempt loop wraps its whole body in a bare
`except Exception` handler and the fallback block in a bare `except`, so the
embedding has no propagating-exception outcome at all.) -/
theorem claim_C10_extract_totality (env : PyEnv) (beh : ExtractBehavior)
    (chunk domain : String) :
    (extract_triples env beh chunk domain).2.1 ≤ 3 ∧
    (extract_triples env beh chunk domain).2.2 ≤ 1 ∧
    ((beh.main 0).isRaise = true → (beh.main 1).isRaise = true →
      (beh.main 2).isRaise = true →
      (extract_triples env beh chunk domain).1 = ⟨[]⟩) := by
  unfold extract_triples
  split
  · exact ⟨Nat.zero_le 3, Nat.zero_le 1, fun _ _ _ => rfl⟩
  · refine ⟨?_, extractAttempts_simple_le env beh [0, 1, 2], ?_⟩
    · simpa using extractAttempts_main_le env beh [0, 1, 2]
    · intro h0 h1 h2
      refine extractAttempts_all_raise env beh [0, 1, 2] (fun a ha => ?_)
      simp only [List.mem_cons, List.mem_singleton] at ha
      rcases ha with rfl | rfl | rfl | hfalse
      · exact h0
      · exact h1
      · exact h2
      · cases hfalse

/-- Witness for C10: every call raises a non-rate-limit server error; the call
still returns the empty `KnowledgeGraph` within the attempt bounds. -/
theorem claim_C10_extract_totality_witness :
    (behAllRaise.main 0).isRaise = true ∧ (behAllRaise.main 1).isRaise = true ∧
    (behAllRaise.main 2).isRaise = true ∧
    (extract_triples envTrivial behAllRaise chunkC8 "Biology").1 = ⟨[]⟩ ∧
    (extract_triples envTrivial behAllRaise chunkC8 "Biology").2.1 ≤ 3 := by
  have h := claim_C10_extract_totality envTrivial behAllRaise chunkC8 "Biology"
  exact ⟨rfl, rfl, rfl, h.2.2 rfl rfl rfl, h.1⟩

/-! ## Query-repair identity lemmas (C7) -/

theorem string_mk_toList (s : String) : (⟨s.toList⟩ : String) = s := by
  cases s; rfl

theorem reSubGo_id (tryRepl : List Char → Option (List Char × Nat))
    (occAt : List Char → Bool)
    (himp : ∀ cs, tryRepl cs ≠ none → occAt cs = true) :
    ∀ (fuel : Nat) (cs : List Char), scanAny occAt cs = false →
      reSubGo tryRepl fuel cs = cs := by
  intro fuel
  induction fuel with
  | zero => intro cs _; cases cs <;> rfl
  | succ fuel ih =>
      intro cs h
      cases cs with
      | nil => rfl
      | cons c r =>
          have h2 : occAt (c :: r) = false ∧ scanAny occAt r = false := by
            have hh : (occAt (c :: r) || scanAny occAt r) = false := h
            exact ⟨by cases hb : occAt (c :: r) <;> simp [hb] at hh ⊢,
              by cases hb : scanAny occAt r <;> simp [hb] at hh ⊢⟩
          have htry : tryRepl (c :: r) = none := by
            by_contra hne
            rw [himp (c :: r) hne] at h2
            exact absurd h2.1 (by simp)
          simp only [reSubGo, htry]
          rw [ih r h2.2]

theorem reSub_id (tryRepl : List Char → Option (List Char × Nat))
    (occAt : List Char → Bool)
    (himp : ∀ cs, tryRepl cs ≠ none → occAt cs = true)
    (s : String) (h : scanAny occAt s.toList = false) : reSub tryRepl s = s := by
  unfold reSub
  rw [reSubGo_id tryRepl occAt himp _ _ h]
  exact string_mk_toList s

theorem trySub1_occ (cs : List Char) (h : trySub1 cs ≠ none) :
    unlabeledNodeAt cs = true := by
  rcases cs with _ | ⟨c, r1⟩
  · exact absurd rfl h
  · simp only [trySub1] at h
    simp only [unlabeledNodeAt]
    split at h
    · next hc =>
        rw [if_pos hc]
        split at h
        · exact absurd rfl h
        · next hvar =>
            rw [if_neg hvar]
            split at h
            · next hpre => exact hpre
            · exact absurd rfl h
    · next hc => exact absurd rfl h

theorem trySub2_occ (cs : List Char) (h : trySub2 cs ≠ none) :
    untypedRelAt cs = true := by
  rcases cs with _ | ⟨c, r⟩
  · exact absurd rfl h
  · simp only [trySub2] at h
    simp only [untypedRelAt]
    split at h
    · next hc =>
        rw [if_pos hc]
        split at h
        · next heq => rw [heq]; rfl
        · exact absurd rfl h
    · next hc => exact absurd rfl h

theorem trySub3_occ (cs : List Char) (h : trySub3 cs ≠ none) :
    unlabeledNodeAt cs = true := by
  rcases cs with _ | ⟨c, r⟩
  · exact absurd rfl h
  · simp only [trySub3] at h
    simp only [unlabeledNodeAt]
    split at h
    · next hc =>
        rw [if_pos hc]
        rcases r with _ | ⟨c0, rr⟩
        · exact absurd rfl h
        · dsimp only at h ⊢
          split at h
          · next hc0 =>
              split at h
              · next hpre =>
                  have hw : isWordChar c0 = true := by
                    unfold isWordChar
                    rcases Bool.or_eq_true_iff.mp hc0 with h1 | h2
                    · rcases Bool.or_eq_true_iff.mp h1 with h3 | h4
                      · simp [h3]
                      · simp [h4]
                    · simp [h2]
                  rw [if_neg (by simp [List.takeWhile_cons, hw])]
                  exact hpre
              · exact absurd rfl h
          · exact absurd rfl h
    · next hc => exact absurd rfl h

/-- C7 counterexample, refuting the claim as stated.  `subscriptQueryW` is an
already-correct query in the claim's sense: every node pattern carries the
`:Entity` label (no unlabeled `(var \x7bname:` occurrence) and its only
relationship pattern, `-[r:RELATION]->`, carries the `:RELATION` type (no
untyped bracket in relationship position).  Yet `fix_cypher_query` mutates it:
the second `re.sub` pass matches every bare square-bracket group, regardless
of syntactic role, so the list subscript `collect(m.name)[0]` is rewritten to
`collect(m.name)[0:RELATION]`. -/
theorem claim_C7_counterexample :
    hasUnlabeledNode subscriptQueryW = false ∧
    hasUntypedRelPattern subscriptQueryW = false ∧
    fix_cypher_query subscriptQueryW =
      "MATCH (n:Entity \x7bname: 'tau'\x7d)-[r:RELATION]->(m:Entity) RETURN collect(m.name)[0:RELATION]" ∧
    fix_cypher_query subscriptQueryW ≠ subscriptQueryW :=
  ⟨rfl, rfl, rfl, by decide⟩

/-- C7 (amended).  The query-repair rewrite is the identity exactly on queries
with no unlabeled node pattern and no bare square-bracket group in *any*
syntactic role: whenever every node pattern carries a label (no occurrence of
an unlabeled `(var \x7bname: ...` pattern — the label's `:` is not a word
character) and the query contains no `[]`/`[word]` group anywhere — a stronger
requirement than typing the relationship patterns, since it also forbids list
subscripts such as `[0]` — `fix_cypher_query` returns its input verbatim. -/
theorem claim_C7_repair_identity (q : String)
    (hn : hasUnlabeledNode q = false) (hr : hasUntypedRel q = false) :
    fix_cypher_query q = q := by
  unfold fix_cypher_query
  split
  · rfl
  · rw [reSub_id trySub1 unlabeledNodeAt trySub1_occ q hn,
      reSub_id trySub2 untypedRelAt trySub2_occ q hr,
      reSub_id trySub3 unlabeledNodeAt trySub3_occ q hn]

/-- Witness for C7: a realistic fully-labeled query is returned unchanged. -/
theorem claim_C7_repair_identity_witness :
    hasUnlabeledNode labeledQueryW = false ∧ hasUntypedRel labeledQueryW = false ∧
    fix_cypher_query labeledQueryW = labeledQueryW :=
  ⟨rfl, rfl, claim_C7_repair_identity labeledQueryW rfl rfl⟩

/-! ## Query-pipeline lemmas (C5) -/

theorem p3Loop_searches_le (g : Graph) (sid : Option String)
    (llm : Option (String → CallResult)) (question : String) (l : List String) :
    (p3Loop g sid llm question l).2.2 ≤ l.length := by
  induction l with
  | nil => exact Nat.le_refl 0
  | cons e rest ih =>
      simp only [p3Loop]
      split
      · split
        · simp
        · simpa using Nat.add_le_add_right ih 1
      · exact Nat.le_succ_of_le ih

theorem try_direct_searches_le (g : Graph) (sid : Option String)
    (llm : Option (String → CallResult)) (question : String) :
    (try_direct_query g sid llm question).2.2 ≤ 3 := by
  have hlen : ((p3Candidates question).take 3).length ≤ 3 := by
    simpa [List.length_take] using Nat.min_le_left 3 (p3Candidates question).length
  have hp3 := p3Loop_searches_le g sid llm question ((p3Candidates question).take 3)
  unfold try_direct_query
  split
  · simp
  · split
    · simp
    · split
      · next v c3 s3 heq =>
          rw [heq] at hp3
          exact le_trans hp3 hlen
      · next c3 s3 heq =>
          rw [heq] at hp3
          exact le_trans hp3 hlen

theorem query_graph_empty_store (sid : Option String) (env : QueryEnv) (question : String) :
    query_graph emptyGraph sid env question = (emptyGraphMsg, 1) := by
  unfold query_graph
  cases hsf : sidFilter sid <;>
    simp [queryAttempts, hsf, sessionNodeCount, emptyGraph]

theorem p1Stage_empty (sid : Option String) (llm : Option (String → CallResult))
    (q : String) : (p1Stage emptyGraph sid llm q).1 = none := by
  unfold p1Stage
  split
  · split
    · next entity _ =>
        have h1 : interactExactRows emptyGraph sid entity = [] := rfl
        have h2 : interactContainsRows emptyGraph sid entity = [] := rfl
        simp [h1, h2]
    · rfl
  · rfl

theorem p2Stage_empty (sid : Option String) (llm : Option (String → CallResult))
    (q : String) : (p2Stage emptyGraph sid llm q).1 = none := by
  unfold p2Stage
  split
  · split
    · next grp _ =>
        simp [show ∀ e, aboutRows emptyGraph sid e = [] from fun e => rfl]
    · rfl
  · rfl

theorem p3Loop_empty (sid : Option String) (llm : Option (String → CallResult))
    (q : String) (l : List String) : (p3Loop emptyGraph sid llm q l).1 = none := by
  induction l with
  | nil => rfl
  | cons e rest ih =>
      simp only [p3Loop]
      split
      · next _ =>
          have h1 : generalRows emptyGraph sid e = [] := rfl
          simp only [h1, List.isEmpty_nil, Bool.not_true, Bool.false_eq_true, if_false]
          exact ih
      · exact ih

theorem try_direct_query_empty (sid : Option String)
    (llm : Option (String → CallResult)) (q : String) :
    (try_direct_query emptyGraph sid llm q).1 = none := by
  unfold try_direct_query
  split
  · next v c1 heq =>
      have h := p1Stage_empty sid llm q
      rw [heq] at h
      cases h
  · split
    · next v c2 heq =>
        have h := p2Stage_empty sid llm q
        rw [heq] at h
        cases h
    · split
      · next v c3 s3 heq =>
          have h := p3Loop_empty sid llm q ((p3Candidates q).take 3)
          rw [heq] at h
          cases h
      · rfl

/-- C5.  With an empty store, `query_graph` terminates on its first store call:
the session-scoped node count is zero, so the call returns the terminal
empty-graph message after exactly one store call (within the claimed bound of
four) — no retry or recursion is reached.  Independently, for every store,
session, LLM and question, the direct-fallback stage attempts at most three
candidate-entity searches (`potential_entities[:3]`), and on an empty store
`try_direct_query` yields the terminal no-result signal `None`. -/
theorem claim_C5_bounded_pipeline (sid : Option String) (env : QueryEnv)
    (question : String) :
    query_graph emptyGraph sid env question = (emptyGraphMsg, 1) ∧
    (query_graph emptyGraph sid env question).2 ≤ 4 ∧
    (∀ (g : Graph) (sid2 : Option String) (llm : Option (String → CallResult))
      (q : String), (try_direct_query g sid2 llm q).2.2 ≤ 3) ∧
    (∀ (sid2 : Option String) (llm : Option (String → CallResult)) (q : String),
      (try_direct_query emptyGraph sid2 llm q).1 = none) := by
  refine ⟨query_graph_empty_store sid env question, ?_, ?_, ?_⟩
  · rw [query_graph_empty_store sid env question]
    exact Nat.le_of_lt_succ (by omega)
  · exact fun g sid2 llm q => try_direct_searches_le g sid2 llm q
  · exact fun sid2 llm q => try_direct_query_empty sid2 llm q

/-- C4 (code bug).  The spec's ingest contract and the caller in `app.py`
(`file_triples, domain, summary = process_pdf_file(...)`) expect a 3-tuple,
but `process_pdf_file` returns the flat list of extracted triples: on a
document whose extracted text is empty (an image-only scan) it returns `[]`,
and the caller's 3-way unpacking of that list fails (a `ValueError` in
Python, `none` here). -/
theorem claim_C4_ingest_returns_list_not_tuple :
    process_pdf_file envTrivial behTrivialPdf "" none = ([], 0) ∧
    unpack3 (process_pdf_file envTrivial behTrivialPdf "" none).1 = none :=
  ⟨rfl, rfl⟩

end KG
